import Mathlib

/-!
Shallow embedding of the Skia Vulkan command-buffer layer
(`src/gpu/vk/GrVkCommandBuffer.cpp`): the recording-state machine, the
bound-state cache, resource tracking, render-pass control, submission,
semaphore filtering and the fence lifecycle.

Native Vulkan calls issued by an operation are modelled as an emitted trace
of `Cmd` events.  An `SkASSERT` precondition failure (a fatal contract
violation) and the `SK_ABORT` paths are modelled by an operation returning
`none`.  Dynamic state that the source compares with `memcmp` is represented
by the bit patterns of its fields, so `memcmp` equality becomes structural
equality of the embedded records.
-/

/-- Bit pattern of a 32-bit IEEE-754 float.  The source performs no float
arithmetic on cached dynamic state: it only stores constants, copies values
with `memcpy`/assignment and compares them bytewise with `memcmp`, so a float
is represented faithfully by its bit pattern, and byte equality of two floats
is equality of their bit patterns. -/
abbrev FloatBits := Nat

/-- Bit pattern of the float literal `-1.0f` (`0xBF800000`). -/
def negOneFloatBits : FloatBits := 0xBF800000

/-- Bit pattern of `0.0f`, the value that `memset(..., 0, ...)` produces. -/
def zeroFloatBits : FloatBits := 0

/-- Native `VkBuffer` handle; `0` plays the role of `VK_NULL_HANDLE`. -/
abbrev VkBuffer := Nat

/-- Null native handle. -/
def VK_NULL_HANDLE : VkBuffer := 0

/-- Identifier of a tracked GPU resource (`GrVkResource`). -/
abbrev GrVkResource := Nat

/-- Fields of `VkViewport` (x, y, width, height, minDepth, maxDepth), each a
32-bit float represented by its bit pattern. -/
structure VkViewport where
  x : FloatBits
  y : FloatBits
  width : FloatBits
  height : FloatBits
  minDepth : FloatBits
  maxDepth : FloatBits
deriving DecidableEq

/-- Fields of `VkRect2D`: a signed `VkOffset2D` and an unsigned
`VkExtent2D`. -/
structure VkRect2D where
  offsetX : Int
  offsetY : Int
  extentWidth : Nat
  extentHeight : Nat
deriving DecidableEq

/-- Four blend-constant floats (`float blendConstants[4]`), each represented
by its bit pattern. -/
structure BlendConstants where
  c0 : FloatBits
  c1 : FloatBits
  c2 : FloatBits
  c3 : FloatBits
deriving DecidableEq

/-- Barrier kinds dispatched by `GrVkCommandBuffer::pipelineBarrier`. -/
inductive BarrierType where
  | kMemory_BarrierType
  | kBufferMemory_BarrierType
  | kImageMemory_BarrierType
deriving DecidableEq

/-- Subpass contents selected by `beginRenderPass`. -/
inductive SubpassContents where
  | inlineContents
  | secondaryCommandBuffers
deriving DecidableEq

/-- Synchronization policy of `GrVkGpu::SyncQueue`. -/
inductive SyncQueue where
  | kForce_SyncQueue
  | kSkip_SyncQueue
deriving DecidableEq

/-- Result of the device's `GetFenceStatus` query, as consumed by
`finished()`: `VK_SUCCESS`, `VK_NOT_READY`, or any other status code. -/
inductive FenceStatus where
  | success
  | notReady
  | otherError (code : Int)
deriving DecidableEq

/-- Kind of storage treatment a `reset()` call applied to the two tracking
lists: a full deallocate-and-reserve, or a rewind that keeps the backing
storage. -/
inductive ResetKind where
  | full
  | rewind
deriving DecidableEq

/-- Modelled from the spec: `GrVkRenderPass` (declared outside src/) is the
external render-pass object.  The fields are exactly the accessors this file
calls: the native handle (`vkRenderPass()`), the identity used when the pass
is tracked as a resource, `stencilAttachmentIndex` (present or absent),
`clearValueCount()`, and a compatibility class realising the spec's
compatibility relation — two passes, or a pass and a target, are compatible
iff their classes match. -/
structure GrVkRenderPass where
  handle : Nat
  resourceId : GrVkResource
  stencilIdx : Option Nat
  clearValueCnt : Nat
  compatClass : Nat
deriving DecidableEq

/-- Modelled from the spec: the slice of `GrVkRenderTarget` (outside src/)
used here — the attachment-layout compatibility class checked by
`renderPass->isCompatible(target)`, the framebuffer handle, and the backing
resources added by `target.addResources(*this)`. -/
structure GrVkRenderTarget where
  compatClass : Nat
  framebufferHandle : Nat
  resources : List GrVkResource
deriving DecidableEq

/-- Modelled from the spec: `GrVkSemaphore::Resource` (outside src/) carries
signal-intent and wait-intent flags queried as `shouldSignal`/`shouldWait`
and cleared by `markAsSignaled`/`markAsWaited` after a successful
submission. -/
structure SemResource where
  id : GrVkResource
  semaphore : Nat
  flagSignal : Bool
  flagWait : Bool
deriving DecidableEq

/-- Queries the signal-intent flag (`shouldSignal()`). -/
def SemResource.shouldSignal (r : SemResource) : Bool := r.flagSignal

/-- Queries the wait-intent flag (`shouldWait()`). -/
def SemResource.shouldWait (r : SemResource) : Bool := r.flagWait

/-- Clears the signal intent (`markAsSignaled()`). -/
def SemResource.markAsSignaled (r : SemResource) : SemResource :=
  { r with flagSignal := false }

/-- Clears the wait intent (`markAsWaited()`). -/
def SemResource.markAsWaited (r : SemResource) : SemResource :=
  { r with flagWait := false }

/-- Modelled from the spec: the slice of `GrVkVertexBuffer` (outside src/)
used by `bindInputBuffer` — native handle, bind offset, backing tracked
resource. -/
structure GrVkVertexBuffer where
  buffer : VkBuffer
  offset : Nat
  resource : GrVkResource
deriving DecidableEq

/-- Modelled from the spec: the slice of `GrVkIndexBuffer` (outside src/)
used by `bindIndexBuffer`. -/
structure GrVkIndexBuffer where
  buffer : VkBuffer
  offset : Nat
  resource : GrVkResource
deriving DecidableEq

/-- Modelled from the spec: the slice of `GrVkImage` (outside src/) used by
the transfer/clear operations — native image handle, current layout, backing
resource. -/
structure GrVkImage where
  image : Nat
  currentLayout : Nat
  resource : GrVkResource
deriving DecidableEq

/-- Modelled from the spec: the slice of `GrVkBuffer` / `GrVkTransferBuffer`
(outside src/) used by the buffer transfer operations. -/
structure GrVkGpuBuffer where
  buffer : VkBuffer
  size : Nat
  resource : GrVkResource
deriving DecidableEq

/-- One `VkBufferCopy` region. -/
structure VkBufferCopy where
  srcOffset : Nat
  dstOffset : Nat
  size : Nat
deriving DecidableEq

/-- Modelled from the spec: the slice of `GrVkPipelineState` (outside src/)
used by the first `bindDescriptorSets` variant — the pipeline-state object's
own uniform-backing resources added via `addUniformResources`. -/
structure GrVkPipelineState where
  uniformResources : List GrVkResource
deriving DecidableEq

/-- Modelled from the spec: the slice of `GrVkPipeline` (outside src/) used
by `bindPipeline` — the native handle, with the pipeline itself being the
tracked resource. -/
structure GrVkPipeline where
  pipeline : Nat
  resourceId : GrVkResource
deriving DecidableEq

/-- Trace of native device calls emitted by the embedded operations. -/
inductive Cmd where
  | cmdBindVertexBuffers (binding : Nat) (buffer : VkBuffer) (offset : Nat)
  | cmdBindIndexBuffer (buffer : VkBuffer) (offset : Nat)
  | cmdSetViewport (firstViewport : Nat) (viewport : VkViewport)
  | cmdSetScissor (firstScissor : Nat) (scissor : VkRect2D)
  | cmdSetBlendConstants (c : BlendConstants)
  | cmdPipelineBarrier (srcStageMask dstStageMask : Nat) (byRegion : Bool)
      (barrierType : BarrierType)
  | cmdClearAttachments (numAttachments : Nat) (numRects : Nat)
  | cmdBindDescriptorSets (layout : Nat) (firstSet : Nat) (setCount : Nat)
  | cmdBindPipeline (pipeline : Nat)
  | cmdDraw (vertexCount instanceCount firstVertex firstInstance : Nat)
  | cmdDrawIndexed (indexCount instanceCount firstIndex : Nat)
      (vertexOffset : Int) (firstInstance : Nat)
  | beginCommandBuffer
  | endCommandBuffer
  | resetCommandBuffer
  | cmdBeginRenderPass (renderPassHandle : Nat) (framebuffer : Nat)
      (clearValueCount : Nat) (contents : SubpassContents)
  | cmdEndRenderPass
  | cmdExecuteCommands (secondaryHandle : Nat)
  | createFence (fence : Nat)
  | resetFences (fence : Nat)
  | acquireMutex
  | releaseMutex
  | queueSubmit (waitSems : List Nat) (signalSems : List Nat)
  | markSignaled (id : GrVkResource)
  | markWaited (id : GrVkResource)
  | waitForFences (fence : Nat)
  | destroyFence (fence : Nat)
  | getFenceStatus (fence : Nat)
  | cmdCopyImage (src dst : Nat)
  | cmdBlitImage (src dst : Nat)
  | cmdCopyImageToBuffer (src dst : Nat)
  | cmdCopyBufferToImage (src dst : Nat)
  | cmdCopyBuffer (src dst : Nat)
  | cmdUpdateBuffer (dst : Nat) (dstOffset dataSize : Nat)
  | cmdClearColorImage (image : Nat)
  | cmdClearDepthStencilImage (image : Nat)
  | cmdResolveImage (src dst : Nat)
deriving DecidableEq

/-- Growable tracking array (`SkTDArray` of resource pointers), modelled as
its logical contents plus the capacity of the backing storage, so that the
storage policy of `reset()` (full deallocate-and-reserve versus rewind) is
observable. -/
structure TrackedList where
  items : List GrVkResource
  capacity : Nat
deriving DecidableEq

/-- Appends an element, growing the backing storage if needed
(`push_back`). -/
def TrackedList.push (t : TrackedList) (r : GrVkResource) : TrackedList :=
  { items := t.items ++ [r], capacity := max t.capacity (t.items.length + 1) }

/-- Deallocates the backing storage (`SkTDArray::reset`). -/
def TrackedList.deallocate (_t : TrackedList) : TrackedList :=
  { items := [], capacity := 0 }

/-- Reserves capacity (`SkTDArray::setReserve`). -/
def TrackedList.setReserve (t : TrackedList) (c : Nat) : TrackedList :=
  { t with capacity := max t.capacity c }

/-- Rewinds the logical length to zero while keeping the backing storage
(`SkTDArray::rewind`). -/
def TrackedList.rewind (t : TrackedList) : TrackedList :=
  { t with items := [] }

/-- Modelled from the spec: initial reserve capacity for the tracking lists
(`kInitialTrackedResourcesCount`, a constant declared in the class header,
which is outside src/).  The exact value does not affect any property
proved below. -/
def kInitialTrackedResourcesCount : Nat := 32

/-- Modelled from the spec: size of the fixed array of bound input-buffer
slots (`kMaxInputBuffers`, a constant declared in the class header, outside
src/). -/
def kMaxInputBuffers : Nat := 2

/-- State of the `GrVkCommandBuffer` base class: the native handle, the
`Active` flag, the optional open render pass, the bound-state cache, the two
resource-tracking lists, and the reset counter. -/
structure GrVkCommandBuffer where
  fCmdBuffer : Nat
  fIsActive : Bool
  fActiveRenderPass : Option GrVkRenderPass
  fBoundInputBuffers : List VkBuffer
  fBoundIndexBuffer : VkBuffer
  fCachedViewport : VkViewport
  fCachedScissor : VkRect2D
  fCachedBlendConstant : BlendConstants
  fTrackedResources : TrackedList
  fTrackedRecycledResources : TrackedList
  fNumResets : Nat
deriving DecidableEq

/-- Sentinel viewport written by `invalidateState`: `memset` to zero, then
`width = -1.0f`. -/
def sentinelViewport : VkViewport :=
  { x := zeroFloatBits, y := zeroFloatBits, width := negOneFloatBits,
    height := zeroFloatBits, minDepth := zeroFloatBits, maxDepth := zeroFloatBits }

/-- Sentinel scissor written by `invalidateState`: `memset` to zero, then
`offset.x = -1`. -/
def sentinelScissor : VkRect2D :=
  { offsetX := -1, offsetY := 0, extentWidth := 0, extentHeight := 0 }

/-- Sentinel blend constants written by `invalidateState`: each component is
the float `-1.0`. -/
def sentinelBlendConstant : BlendConstants :=
  { c0 := negOneFloatBits, c1 := negOneFloatBits,
    c2 := negOneFloatBits, c3 := negOneFloatBits }

/-- Embeds `GrVkCommandBuffer::invalidateState`: every bound input-buffer
slot and the index-buffer slot become `VK_NULL_HANDLE` and the cached
viewport/scissor/blend constants become the unset sentinels. -/
def GrVkCommandBuffer.invalidateState (s : GrVkCommandBuffer) : GrVkCommandBuffer :=
  { s with
    fBoundInputBuffers := s.fBoundInputBuffers.map (fun _ => VK_NULL_HANDLE),
    fBoundIndexBuffer := VK_NULL_HANDLE,
    fCachedViewport := sentinelViewport,
    fCachedScissor := sentinelScissor,
    fCachedBlendConstant := sentinelBlendConstant }

/-- Modelled from the spec: `addResource` (declared in the class header,
outside src/) acquires a strong reference and appends to the tracked list;
reference counts themselves are not observable in this model, only the
append. -/
def GrVkCommandBuffer.addResource (s : GrVkCommandBuffer) (r : GrVkResource) :
    GrVkCommandBuffer :=
  { s with fTrackedResources := s.fTrackedResources.push r }

/-- Modelled from the spec: `addRecycledResource` (declared in the class
header, outside src/) acquires a reference and appends to the
tracked-recycled list. -/
def GrVkCommandBuffer.addRecycledResource (s : GrVkCommandBuffer)
    (r : GrVkResource) : GrVkCommandBuffer :=
  { s with fTrackedRecycledResources := s.fTrackedRecycledResources.push r }

/-- Embeds `GrVkCommandBuffer::reset`.  Asserts not-Active.  The release and
recycle device calls on the tracked resources are not observable here (the
resource model carries no reference counts); the storage policy is: after
the pre-incremented counter exceeds the full-reset threshold, deallocate
both lists, reserve fresh capacity and zero the counter, otherwise only
rewind them.  Then invalidate the cached state and issue the native
buffer-reset call.  The threshold `kNumRewindResetsBeforeFullReset` is a
constant declared in the class header (outside src/), so it is kept abstract
as the argument `K`.  The result reports which storage treatment was
applied. -/
def GrVkCommandBuffer.reset (s : GrVkCommandBuffer) (K : Nat) :
    Option (GrVkCommandBuffer × ResetKind × List Cmd) :=
  if s.fIsActive then none
  else if s.fNumResets + 1 > K then
    some (({ s with
              fTrackedResources :=
                s.fTrackedResources.deallocate.setReserve kInitialTrackedResourcesCount,
              fTrackedRecycledResources :=
                s.fTrackedRecycledResources.deallocate.setReserve kInitialTrackedResourcesCount,
              fNumResets := 0 } : GrVkCommandBuffer).invalidateState,
          ResetKind.full, [Cmd.resetCommandBuffer])
  else
    some (({ s with
              fTrackedResources := s.fTrackedResources.rewind,
              fTrackedRecycledResources := s.fTrackedRecycledResources.rewind,
              fNumResets := s.fNumResets + 1 } : GrVkCommandBuffer).invalidateState,
          ResetKind.rewind, [Cmd.resetCommandBuffer])

/-- Embeds `GrVkCommandBuffer::pipelineBarrier`.  Asserts Active and no open
render pass; emits one barrier of the requested kind; mutates no recording
state (the source method is `const`). -/
def GrVkCommandBuffer.pipelineBarrier (s : GrVkCommandBuffer)
    (srcStageMask dstStageMask : Nat) (byRegion : Bool)
    (barrierType : BarrierType) : Option (List Cmd) :=
  if s.fIsActive = true ∧ s.fActiveRenderPass = none then
    some [Cmd.cmdPipelineBarrier srcStageMask dstStageMask byRegion barrierType]
  else none

/-- Embeds `GrVkCommandBuffer::bindInputBuffer`.  Asserts a non-null handle
and an in-range binding slot; emits the native bind and updates the cached
slot only when the handle differs from the cached binding, and in that same
branch appends the buffer's resource to the tracked list. -/
def GrVkCommandBuffer.bindInputBuffer (s : GrVkCommandBuffer) (binding : Nat)
    (vbuffer : GrVkVertexBuffer) : Option (GrVkCommandBuffer × List Cmd) :=
  if vbuffer.buffer = VK_NULL_HANDLE then none
  else if kMaxInputBuffers ≤ binding then none
  else if vbuffer.buffer ≠ s.fBoundInputBuffers.getD binding VK_NULL_HANDLE then
    some ({ s.addResource vbuffer.resource with
              fBoundInputBuffers := s.fBoundInputBuffers.set binding vbuffer.buffer },
          [Cmd.cmdBindVertexBuffers binding vbuffer.buffer vbuffer.offset])
  else
    some (s, [])

/-- Embeds `GrVkCommandBuffer::bindIndexBuffer`.  Asserts a non-null handle;
emits the native bind, updates the cached index slot and appends the
buffer's resource only when the handle differs from the cached binding. -/
def GrVkCommandBuffer.bindIndexBuffer (s : GrVkCommandBuffer)
    (ibuffer : GrVkIndexBuffer) : Option (GrVkCommandBuffer × List Cmd) :=
  if ibuffer.buffer = VK_NULL_HANDLE then none
  else if ibuffer.buffer ≠ s.fBoundIndexBuffer then
    some ({ s.addResource ibuffer.resource with fBoundIndexBuffer := ibuffer.buffer },
          [Cmd.cmdBindIndexBuffer ibuffer.buffer ibuffer.offset])
  else
    some (s, [])

/-- Embeds `GrVkCommandBuffer::clearAttachments`.  Asserts Active, an open
render pass, and a positive attachment and rectangle count; the per-
attachment color-index debug check is not modelled (it is against external
render-pass data and mutates nothing).  The method is `const`. -/
def GrVkCommandBuffer.clearAttachments (s : GrVkCommandBuffer)
    (numAttachments numRects : Nat) : Option (List Cmd) :=
  if s.fIsActive = true ∧ s.fActiveRenderPass.isSome = true ∧
      0 < numAttachments ∧ 0 < numRects then
    some [Cmd.cmdClearAttachments numAttachments numRects]
  else none

/-- Embeds the first `GrVkCommandBuffer::bindDescriptorSets` variant: asserts
Active, emits the native call, then derives the tracked resources from the
pipeline-state object's own uniform resources. -/
def GrVkCommandBuffer.bindDescriptorSets (s : GrVkCommandBuffer)
    (pipelineState : GrVkPipelineState) (layout firstSet setCount : Nat) :
    Option (GrVkCommandBuffer × List Cmd) :=
  if s.fIsActive = true then
    some (pipelineState.uniformResources.foldl GrVkCommandBuffer.addResource s,
          [Cmd.cmdBindDescriptorSets layout firstSet setCount])
  else none

/-- Embeds the second `GrVkCommandBuffer::bindDescriptorSets` variant:
asserts Active, emits the native call, then appends the caller-supplied
recycled and plain resource lists. -/
def GrVkCommandBuffer.bindDescriptorSetsExplicit (s : GrVkCommandBuffer)
    (recycled : List GrVkResource) (resources : List GrVkResource)
    (layout firstSet setCount : Nat) : Option (GrVkCommandBuffer × List Cmd) :=
  if s.fIsActive = true then
    some (resources.foldl GrVkCommandBuffer.addResource
            (recycled.foldl GrVkCommandBuffer.addRecycledResource s),
          [Cmd.cmdBindDescriptorSets layout firstSet setCount])
  else none

/-- Embeds `GrVkCommandBuffer::bindPipeline`: asserts Active, emits the
native call, tracks the pipeline. -/
def GrVkCommandBuffer.bindPipeline (s : GrVkCommandBuffer)
    (pipeline : GrVkPipeline) : Option (GrVkCommandBuffer × List Cmd) :=
  if s.fIsActive = true then
    some (s.addResource pipeline.resourceId, [Cmd.cmdBindPipeline pipeline.pipeline])
  else none

/-- Embeds `GrVkCommandBuffer::draw`: asserts Active and an open render
pass; `const`, emits only the draw. -/
def GrVkCommandBuffer.draw (s : GrVkCommandBuffer)
    (vertexCount instanceCount firstVertex firstInstance : Nat) :
    Option (List Cmd) :=
  if s.fIsActive = true ∧ s.fActiveRenderPass.isSome = true then
    some [Cmd.cmdDraw vertexCount instanceCount firstVertex firstInstance]
  else none

/-- Embeds `GrVkCommandBuffer::drawIndexed`: asserts Active and an open
render pass; `const`, emits only the draw. -/
def GrVkCommandBuffer.drawIndexed (s : GrVkCommandBuffer)
    (indexCount instanceCount firstIndex : Nat) (vertexOffset : Int)
    (firstInstance : Nat) : Option (List Cmd) :=
  if s.fIsActive = true ∧ s.fActiveRenderPass.isSome = true then
    some [Cmd.cmdDrawIndexed indexCount instanceCount firstIndex vertexOffset
            firstInstance]
  else none

/-- Embeds `GrVkCommandBuffer::setViewport`.  Asserts Active and a viewport
count of one; emits the native call and updates the cache only when the
argument differs bytewise (`memcmp`) from the cached viewport. -/
def GrVkCommandBuffer.setViewport (s : GrVkCommandBuffer)
    (firstViewport viewportCount : Nat) (viewport : VkViewport) :
    Option (GrVkCommandBuffer × List Cmd) :=
  if s.fIsActive = true ∧ viewportCount = 1 then
    if viewport ≠ s.fCachedViewport then
      some ({ s with fCachedViewport := viewport },
            [Cmd.cmdSetViewport firstViewport viewport])
    else some (s, [])
  else none

/-- Embeds `GrVkCommandBuffer::setScissor`.  Asserts Active and a scissor
count of one; emits the native call and updates the cache only when the
argument differs bytewise from the cached scissor. -/
def GrVkCommandBuffer.setScissor (s : GrVkCommandBuffer)
    (firstScissor scissorCount : Nat) (scissor : VkRect2D) :
    Option (GrVkCommandBuffer × List Cmd) :=
  if s.fIsActive = true ∧ scissorCount = 1 then
    if scissor ≠ s.fCachedScissor then
      some ({ s with fCachedScissor := scissor },
            [Cmd.cmdSetScissor firstScissor scissor])
    else some (s, [])
  else none

/-- Embeds `GrVkCommandBuffer::setBlendConstants`.  Asserts Active; emits the
native call and updates the cache only when the four floats differ bytewise
from the cached constants. -/
def GrVkCommandBuffer.setBlendConstants (s : GrVkCommandBuffer)
    (blendConstants : BlendConstants) : Option (GrVkCommandBuffer × List Cmd) :=
  if s.fIsActive = true then
    if blendConstants ≠ s.fCachedBlendConstant then
      some ({ s with fCachedBlendConstant := blendConstants },
            [Cmd.cmdSetBlendConstants blendConstants])
    else some (s, [])
  else none

/-- State of `GrVkPrimaryCommandBuffer`: the base state plus the lazily
created submission fence (a native handle, or none) and the list of executed
secondary command buffers awaiting recycling. -/
structure GrVkPrimaryCommandBuffer extends GrVkCommandBuffer where
  fSubmitFence : Option Nat
  fSecondaryCommandBuffers : List Nat
deriving DecidableEq

/-- State of `GrVkSecondaryCommandBuffer`: exactly the base state (the
subclass adds no fields; its bound render pass lives in
`fActiveRenderPass`). -/
structure GrVkSecondaryCommandBuffer extends GrVkCommandBuffer
deriving DecidableEq

/-- Replaces the base-class portion of a primary buffer's state. -/
def GrVkPrimaryCommandBuffer.withBase (p : GrVkPrimaryCommandBuffer)
    (b : GrVkCommandBuffer) : GrVkPrimaryCommandBuffer :=
  { p with toGrVkCommandBuffer := b }

/-- Embeds `GrVkPrimaryCommandBuffer::begin`: asserts not-Active, issues a
one-time-submit begin, becomes Active.  The cached state is not touched. -/
def GrVkPrimaryCommandBuffer.begin (p : GrVkPrimaryCommandBuffer) :
    Option (GrVkPrimaryCommandBuffer × List Cmd) :=
  if p.fIsActive then none
  else some ({ p with fIsActive := true }, [Cmd.beginCommandBuffer])

/-- Embeds `GrVkPrimaryCommandBuffer::end`: asserts Active and no open
render pass, issues the native end, invalidates the cached state, becomes
Idle. -/
def GrVkPrimaryCommandBuffer.end' (p : GrVkPrimaryCommandBuffer) :
    Option (GrVkPrimaryCommandBuffer × List Cmd) :=
  if p.fIsActive = true ∧ p.fActiveRenderPass = none then
    some ({ p.withBase p.toGrVkCommandBuffer.invalidateState with fIsActive := false },
          [Cmd.endCommandBuffer])
  else none

/-- Embeds `GrVkPrimaryCommandBuffer::beginRenderPass`: asserts Active, no
open render pass and pass/target compatibility; computes the render area
from `bounds` (with the two's-complement cast of width and height to
`uint32_t`), advertises a clear-value count that is special-cased when the
pass has a stencil attachment index, selects inline versus secondary-buffer
contents, opens the pass, and tracks the render pass and the target's
backing resources. -/
def GrVkPrimaryCommandBuffer.beginRenderPass (p : GrVkPrimaryCommandBuffer)
    (renderPass : GrVkRenderPass) (target : GrVkRenderTarget)
    (forSecondaryCB : Bool) : Option (GrVkPrimaryCommandBuffer × List Cmd) :=
  if p.fIsActive = true ∧ p.fActiveRenderPass = none ∧
      renderPass.compatClass = target.compatClass then
    let clearValueCount : Nat :=
      match renderPass.stencilIdx with
      | some _ => if renderPass.clearValueCnt ≠ 0 then 2 else 0
      | none => renderPass.clearValueCnt
    let contents : SubpassContents :=
      if forSecondaryCB then SubpassContents.secondaryCommandBuffers
      else SubpassContents.inlineContents
    let p1 : GrVkPrimaryCommandBuffer :=
      { p with fActiveRenderPass := some renderPass }
    let p2 : GrVkPrimaryCommandBuffer :=
      p1.withBase (target.resources.foldl GrVkCommandBuffer.addResource
        (p1.toGrVkCommandBuffer.addResource renderPass.resourceId))
    some (p2, [Cmd.cmdBeginRenderPass renderPass.handle target.framebufferHandle
                 clearValueCount contents])
  else none

/-- Embeds `GrVkPrimaryCommandBuffer::endRenderPass`: asserts Active and an
open render pass; closes it. -/
def GrVkPrimaryCommandBuffer.endRenderPass (p : GrVkPrimaryCommandBuffer) :
    Option (GrVkPrimaryCommandBuffer × List Cmd) :=
  if p.fIsActive = true ∧ p.fActiveRenderPass.isSome = true then
    some ({ p with fActiveRenderPass := none }, [Cmd.cmdEndRenderPass])
  else none

/-- Embeds `GrVkPrimaryCommandBuffer::executeCommands`: asserts the primary
Active with an open render pass, the secondary not Active, and its bound
render pass compatible with the primary's open one; executes the secondary,
retains it for later recycling, and invalidates all cached dynamic state on
the primary (the secondary's own recorded state is irrelevant). -/
def GrVkPrimaryCommandBuffer.executeCommands (p : GrVkPrimaryCommandBuffer)
    (buffer : GrVkSecondaryCommandBuffer) :
    Option (GrVkPrimaryCommandBuffer × List Cmd) :=
  if p.fIsActive = true ∧ buffer.fIsActive = false then
    match p.fActiveRenderPass, buffer.fActiveRenderPass with
    | some prp, some srp =>
      if prp.compatClass = srp.compatClass then
        let p1 : GrVkPrimaryCommandBuffer :=
          { p with fSecondaryCommandBuffers :=
              p.fSecondaryCommandBuffers ++ [buffer.fCmdBuffer] }
        some (p1.withBase p1.toGrVkCommandBuffer.invalidateState,
              [Cmd.cmdExecuteCommands buffer.fCmdBuffer])
      else none
    | _, _ => none
  else none

/-- Embeds `GrVkPrimaryCommandBuffer::submitToQueue`.  Asserts not-Active.
Lazily creates the submission fence when none exists (the fresh native
handle is supplied by the oracle argument `newFenceId`), else resets the
existing one.  With both semaphore lists empty, submits directly with no
semaphores.  Otherwise, under the process-wide mutex: filters each list by
its `shouldSignal`/`shouldWait` predicate, tracks each filtered semaphore as
a resource, submits with the filtered handles — and then, after the submit
returns, runs the mark loops, which iterate over the entire input lists.
With the forced-sync policy the call blocks on the fence (the oracle
`waitOk` reports whether the wait returned before the timeout; a timeout is
the fatal `SK_ABORT` path, modelled as `none`), then destroys the fence and
clears the stored handle.  Returns the new primary state, the post-call
states of the two semaphore lists, and the emitted trace. -/
def GrVkPrimaryCommandBuffer.submitToQueue (p : GrVkPrimaryCommandBuffer)
    (sync : SyncQueue) (signalSemaphores waitSemaphores : List SemResource)
    (newFenceId : Nat) (waitOk : Bool) :
    Option (GrVkPrimaryCommandBuffer × List SemResource × List SemResource × List Cmd) :=
  if p.fIsActive then none
  else
    let fencePair : GrVkPrimaryCommandBuffer × List Cmd :=
      match p.fSubmitFence with
      | none => ({ p with fSubmitFence := some newFenceId },
                 [Cmd.createFence newFenceId])
      | some f => (p, [Cmd.resetFences f])
    let p1 := fencePair.1
    let fenceTrace := fencePair.2
    let fence := p1.fSubmitFence.getD 0
    let submitted :
        GrVkPrimaryCommandBuffer × List SemResource × List SemResource × List Cmd :=
      if signalSemaphores.length = 0 ∧ waitSemaphores.length = 0 then
        (p1, signalSemaphores, waitSemaphores, [Cmd.queueSubmit [] []])
      else
        let filteredSignal := signalSemaphores.filter SemResource.shouldSignal
        let filteredWait := waitSemaphores.filter SemResource.shouldWait
        let p2 : GrVkPrimaryCommandBuffer :=
          p1.withBase (filteredWait.foldl (fun acc r => acc.addResource r.id)
            (filteredSignal.foldl (fun acc r => acc.addResource r.id)
              p1.toGrVkCommandBuffer))
        (p2,
         signalSemaphores.map SemResource.markAsSignaled,
         waitSemaphores.map SemResource.markAsWaited,
         [Cmd.acquireMutex,
          Cmd.queueSubmit (filteredWait.map SemResource.semaphore)
            (filteredSignal.map SemResource.semaphore)]
           ++ signalSemaphores.map (fun r => Cmd.markSignaled r.id)
           ++ waitSemaphores.map (fun r => Cmd.markWaited r.id)
           ++ [Cmd.releaseMutex])
    let p2 := submitted.1
    let signalOut := submitted.2.1
    let waitOut := submitted.2.2.1
    let submitTrace := submitted.2.2.2
    match sync with
    | SyncQueue.kForce_SyncQueue =>
      if waitOk then
        some ({ p2 with fSubmitFence := none }, signalOut, waitOut,
              fenceTrace ++ submitTrace
                ++ [Cmd.waitForFences fence, Cmd.destroyFence fence])
      else none
    | SyncQueue.kSkip_SyncQueue =>
      some (p2, signalOut, waitOut, fenceTrace ++ submitTrace)

/-- Embeds `GrVkPrimaryCommandBuffer::finished`: with no fence stored the
poll returns true without any device query; otherwise `GetFenceStatus` (its
result supplied by the oracle `status`) maps `VK_SUCCESS` to true,
`VK_NOT_READY` to false, and any other status to the fatal `SK_ABORT` path,
modelled as `none`. -/
def GrVkPrimaryCommandBuffer.finished (p : GrVkPrimaryCommandBuffer)
    (status : FenceStatus) : Option (Bool × List Cmd) :=
  match p.fSubmitFence with
  | none => some (true, [])
  | some f =>
    match status with
    | FenceStatus.success => some (true, [Cmd.getFenceStatus f])
    | FenceStatus.notReady => some (false, [Cmd.getFenceStatus f])
    | FenceStatus.otherError _ => none

/-- Embeds `GrVkPrimaryCommandBuffer::onReset`: returns every executed
secondary buffer to the device's recycle pool and clears the list. -/
def GrVkPrimaryCommandBuffer.onReset (p : GrVkPrimaryCommandBuffer) :
    GrVkPrimaryCommandBuffer :=
  { p with fSecondaryCommandBuffers := [] }

/-- Embeds `reset` on a primary buffer: the base-class reset followed by the
`onReset` hook. -/
def GrVkPrimaryCommandBuffer.reset (p : GrVkPrimaryCommandBuffer) (K : Nat) :
    Option (GrVkPrimaryCommandBuffer × ResetKind × List Cmd) :=
  match p.toGrVkCommandBuffer.reset K with
  | none => none
  | some (b, kind, tr) =>
    some ((p.withBase b).onReset, kind, tr)

/-- Embeds `GrVkPrimaryCommandBuffer::copyImage`: asserts Active and no open
render pass, tracks source and destination, emits the native copy. -/
def GrVkPrimaryCommandBuffer.copyImage (p : GrVkPrimaryCommandBuffer)
    (srcImage dstImage : GrVkImage) :
    Option (GrVkPrimaryCommandBuffer × List Cmd) :=
  if p.fIsActive = true ∧ p.fActiveRenderPass = none then
    some (p.withBase ((p.toGrVkCommandBuffer.addResource
            srcImage.resource).addResource dstImage.resource),
          [Cmd.cmdCopyImage srcImage.image dstImage.image])
  else none

/-- Embeds `GrVkPrimaryCommandBuffer::blitImage` (the resource/handle
variant; the `GrVkImage` convenience overload just forwards to it): asserts
Active and no open render pass, tracks both resources, emits the blit. -/
def GrVkPrimaryCommandBuffer.blitImage (p : GrVkPrimaryCommandBuffer)
    (srcResource : GrVkResource) (srcImage : Nat) (dstResource : GrVkResource)
    (dstImage : Nat) : Option (GrVkPrimaryCommandBuffer × List Cmd) :=
  if p.fIsActive = true ∧ p.fActiveRenderPass = none then
    some (p.withBase ((p.toGrVkCommandBuffer.addResource
            srcResource).addResource dstResource),
          [Cmd.cmdBlitImage srcImage dstImage])
  else none

/-- Embeds `GrVkPrimaryCommandBuffer::copyImageToBuffer`: asserts Active and
no open render pass, tracks both resources, emits the native copy. -/
def GrVkPrimaryCommandBuffer.copyImageToBuffer (p : GrVkPrimaryCommandBuffer)
    (srcImage : GrVkImage) (dstBuffer : GrVkGpuBuffer) :
    Option (GrVkPrimaryCommandBuffer × List Cmd) :=
  if p.fIsActive = true ∧ p.fActiveRenderPass = none then
    some (p.withBase ((p.toGrVkCommandBuffer.addResource
            srcImage.resource).addResource dstBuffer.resource),
          [Cmd.cmdCopyImageToBuffer srcImage.image dstBuffer.buffer])
  else none

/-- Embeds `GrVkPrimaryCommandBuffer::copyBufferToImage`: asserts Active and
no open render pass, tracks both resources, emits the native copy. -/
def GrVkPrimaryCommandBuffer.copyBufferToImage (p : GrVkPrimaryCommandBuffer)
    (srcBuffer : GrVkGpuBuffer) (dstImage : GrVkImage) :
    Option (GrVkPrimaryCommandBuffer × List Cmd) :=
  if p.fIsActive = true ∧ p.fActiveRenderPass = none then
    some (p.withBase ((p.toGrVkCommandBuffer.addResource
            srcBuffer.resource).addResource dstImage.resource),
          [Cmd.cmdCopyBufferToImage srcBuffer.buffer dstImage.image])
  else none

/-- Embeds `GrVkPrimaryCommandBuffer::copyBuffer`: asserts Active, no open
render pass, and (debug) that every region is non-empty and lies inside both
buffers; tracks both resources and emits the native copy. -/
def GrVkPrimaryCommandBuffer.copyBuffer (p : GrVkPrimaryCommandBuffer)
    (srcBuffer dstBuffer : GrVkGpuBuffer) (regions : List VkBufferCopy) :
    Option (GrVkPrimaryCommandBuffer × List Cmd) :=
  if p.fIsActive = true ∧ p.fActiveRenderPass = none ∧
      regions.all (fun region =>
        0 < region.size ∧ region.srcOffset < srcBuffer.size ∧
        region.dstOffset < dstBuffer.size ∧
        region.srcOffset + region.size ≤ srcBuffer.size ∧
        region.dstOffset + region.size ≤ dstBuffer.size) then
    some (p.withBase ((p.toGrVkCommandBuffer.addResource
            srcBuffer.resource).addResource dstBuffer.resource),
          [Cmd.cmdCopyBuffer srcBuffer.buffer dstBuffer.buffer])
  else none

/-- Embeds `GrVkPrimaryCommandBuffer::updateBuffer`: asserts Active, no open
render pass, a four-byte-aligned destination offset, and a four-byte-aligned
payload of at most 65536 bytes; tracks the destination and emits the inline
update. -/
def GrVkPrimaryCommandBuffer.updateBuffer (p : GrVkPrimaryCommandBuffer)
    (dstBuffer : GrVkGpuBuffer) (dstOffset dataSize : Nat) :
    Option (GrVkPrimaryCommandBuffer × List Cmd) :=
  if p.fIsActive = true ∧ p.fActiveRenderPass = none ∧ dstOffset % 4 = 0 ∧
      dataSize ≤ 65536 ∧ dataSize % 4 = 0 then
    some (p.withBase (p.toGrVkCommandBuffer.addResource dstBuffer.resource),
          [Cmd.cmdUpdateBuffer dstBuffer.buffer dstOffset dataSize])
  else none

/-- Embeds `GrVkPrimaryCommandBuffer::clearColorImage`: asserts Active and no
open render pass, tracks the image, emits the native clear. -/
def GrVkPrimaryCommandBuffer.clearColorImage (p : GrVkPrimaryCommandBuffer)
    (image : GrVkImage) : Option (GrVkPrimaryCommandBuffer × List Cmd) :=
  if p.fIsActive = true ∧ p.fActiveRenderPass = none then
    some (p.withBase (p.toGrVkCommandBuffer.addResource image.resource),
          [Cmd.cmdClearColorImage image.image])
  else none

/-- Embeds `GrVkPrimaryCommandBuffer::clearDepthStencilImage`: asserts
Active and no open render pass, tracks the image, emits the native clear. -/
def GrVkPrimaryCommandBuffer.clearDepthStencilImage
    (p : GrVkPrimaryCommandBuffer) (image : GrVkImage) :
    Option (GrVkPrimaryCommandBuffer × List Cmd) :=
  if p.fIsActive = true ∧ p.fActiveRenderPass = none then
    some (p.withBase (p.toGrVkCommandBuffer.addResource image.resource),
          [Cmd.cmdClearDepthStencilImage image.image])
  else none

/-- Embeds `GrVkPrimaryCommandBuffer::resolveImage`: asserts Active and no
open render pass, tracks source and destination, emits the native
resolve. -/
def GrVkPrimaryCommandBuffer.resolveImage (p : GrVkPrimaryCommandBuffer)
    (srcImage dstImage : GrVkImage) :
    Option (GrVkPrimaryCommandBuffer × List Cmd) :=
  if p.fIsActive = true ∧ p.fActiveRenderPass = none then
    some (p.withBase ((p.toGrVkCommandBuffer.addResource
            srcImage.resource).addResource dstImage.resource),
          [Cmd.cmdResolveImage srcImage.image dstImage.image])
  else none

/-- Embeds `GrVkSecondaryCommandBuffer::begin`: asserts not-Active (the
non-null compatible render pass is enforced by the argument type), stores
the pass for later compatibility checks, issues a render-pass-continuation
begin, becomes Active. -/
def GrVkSecondaryCommandBuffer.begin (b : GrVkSecondaryCommandBuffer)
    (compatibleRenderPass : GrVkRenderPass) :
    Option (GrVkSecondaryCommandBuffer × List Cmd) :=
  if b.fIsActive then none
  else some ({ b with fActiveRenderPass := some compatibleRenderPass,
                      fIsActive := true },
             [Cmd.beginCommandBuffer])

/-- Embeds `GrVkSecondaryCommandBuffer::end`: asserts Active, issues the
native end, invalidates the cached state, becomes Idle (the stored render
pass is kept). -/
def GrVkSecondaryCommandBuffer.end' (b : GrVkSecondaryCommandBuffer) :
    Option (GrVkSecondaryCommandBuffer × List Cmd) :=
  if b.fIsActive = true then
    some ({ toGrVkCommandBuffer :=
              { b.toGrVkCommandBuffer.invalidateState with fIsActive := false } },
          [Cmd.endCommandBuffer])
  else none

/-- Identities of the semaphores to which a `markAsSignaled` mutation was
applied during a trace. -/
def markSignalEvents (tr : List Cmd) : List GrVkResource :=
  tr.filterMap fun c =>
    match c with
    | Cmd.markSignaled i => some i
    | _ => none

/-- Identities of the semaphores to which a `markAsWaited` mutation was
applied during a trace. -/
def markWaitEvents (tr : List Cmd) : List GrVkResource :=
  tr.filterMap fun c =>
    match c with
    | Cmd.markWaited i => some i
    | _ => none

/-- Native queue submissions in a trace, each as its pair of wait- and
signal-semaphore handle lists. -/
def queueSubmitEvents (tr : List Cmd) : List (List Nat × List Nat) :=
  tr.filterMap fun c =>
    match c with
    | Cmd.queueSubmit w s => some (w, s)
    | _ => none

/-- Fence handles created during a trace. -/
def createFenceEvents (tr : List Cmd) : List Nat :=
  tr.filterMap fun c =>
    match c with
    | Cmd.createFence f => some f
    | _ => none

/-- Fence handles reset during a trace. -/
def resetFencesEvents (tr : List Cmd) : List Nat :=
  tr.filterMap fun c =>
    match c with
    | Cmd.resetFences f => some f
    | _ => none

/-- Fence handles destroyed during a trace. -/
def destroyFenceEvents (tr : List Cmd) : List Nat :=
  tr.filterMap fun c =>
    match c with
    | Cmd.destroyFence f => some f
    | _ => none

/-- Clear-value counts advertised by the `CmdBeginRenderPass` calls of a
trace. -/
def advertisedClearValueCounts (tr : List Cmd) : List Nat :=
  tr.filterMap fun c =>
    match c with
    | Cmd.cmdBeginRenderPass _ _ n _ => some n
    | _ => none

/-- Runs `reset` a given number of times, accumulating the storage treatment
(`full` or `rewind`) each call applied, in order. -/
def resetIter (K : Nat) : GrVkCommandBuffer → Nat → Option (GrVkCommandBuffer × List ResetKind)
  | s, 0 => some (s, [])
  | s, n + 1 =>
    match resetIter K s n with
    | none => none
    | some (s1, kinds) =>
      match s1.reset K with
      | none => none
      | some (s2, kind, _) => some (s2, kinds ++ [kind])

/-- Runs `setViewport` repeatedly with the same argument, concatenating the
emitted traces. -/
def setViewportRun (v : VkViewport) : GrVkCommandBuffer → Nat → Option (GrVkCommandBuffer × List Cmd)
  | s, 0 => some (s, [])
  | s, n + 1 =>
    match s.setViewport 0 1 v with
    | none => none
    | some (s1, tr1) =>
      match setViewportRun v s1 n with
      | none => none
      | some (s2, tr2) => some (s2, tr1 ++ tr2)

/-- Runs `setScissor` repeatedly with the same argument. -/
def setScissorRun (r : VkRect2D) : GrVkCommandBuffer → Nat → Option (GrVkCommandBuffer × List Cmd)
  | s, 0 => some (s, [])
  | s, n + 1 =>
    match s.setScissor 0 1 r with
    | none => none
    | some (s1, tr1) =>
      match setScissorRun r s1 n with
      | none => none
      | some (s2, tr2) => some (s2, tr1 ++ tr2)

/-- Runs `setBlendConstants` repeatedly with the same argument. -/
def setBlendConstantsRun (c : BlendConstants) : GrVkCommandBuffer → Nat → Option (GrVkCommandBuffer × List Cmd)
  | s, 0 => some (s, [])
  | s, n + 1 =>
    match s.setBlendConstants c with
    | none => none
    | some (s1, tr1) =>
      match setBlendConstantsRun c s1 n with
      | none => none
      | some (s2, tr2) => some (s2, tr1 ++ tr2)

/-- Runs `bindInputBuffer` repeatedly with the same slot and buffer. -/
def bindInputBufferRun (binding : Nat) (vb : GrVkVertexBuffer) :
    GrVkCommandBuffer → Nat → Option (GrVkCommandBuffer × List Cmd)
  | s, 0 => some (s, [])
  | s, n + 1 =>
    match s.bindInputBuffer binding vb with
    | none => none
    | some (s1, tr1) =>
      match bindInputBufferRun binding vb s1 n with
      | none => none
      | some (s2, tr2) => some (s2, tr1 ++ tr2)

/-- Runs `bindIndexBuffer` repeatedly with the same buffer. -/
def bindIndexBufferRun (ib : GrVkIndexBuffer) :
    GrVkCommandBuffer → Nat → Option (GrVkCommandBuffer × List Cmd)
  | s, 0 => some (s, [])
  | s, n + 1 =>
    match s.bindIndexBuffer ib with
    | none => none
    | some (s1, tr1) =>
      match bindIndexBufferRun ib s1 n with
      | none => none
      | some (s2, tr2) => some (s2, tr1 ++ tr2)

/-- Cached dynamic state of a buffer: the bound input-buffer slots, the
bound index buffer, and the cached viewport, scissor and blend constants. -/
def dynState (s : GrVkCommandBuffer) :
    List VkBuffer × VkBuffer × VkViewport × VkRect2D × BlendConstants :=
  (s.fBoundInputBuffers, s.fBoundIndexBuffer, s.fCachedViewport,
   s.fCachedScissor, s.fCachedBlendConstant)

/-- The unset-sentinel configuration of the cached dynamic state, for a
given number of input-buffer slots. -/
def unsetDynState (numSlots : Nat) :
    List VkBuffer × VkBuffer × VkViewport × VkRect2D × BlendConstants :=
  (List.replicate numSlots VK_NULL_HANDLE, VK_NULL_HANDLE, sentinelViewport,
   sentinelScissor, sentinelBlendConstant)

/-- Empty tracking list with no backing storage. -/
def emptyTracked : TrackedList := { items := [], capacity := 0 }

/-- Sample render pass without a stencil attachment. -/
def sampleRenderPass : GrVkRenderPass :=
  { handle := 11, resourceId := 101, stencilIdx := none, clearValueCnt := 1,
    compatClass := 3 }

/-- Sample render pass with a combined depth/stencil attachment. -/
def sampleStencilRenderPass : GrVkRenderPass :=
  { handle := 12, resourceId := 102, stencilIdx := some 1, clearValueCnt := 2,
    compatClass := 3 }

/-- Sample render target compatible with the sample render passes. -/
def sampleTarget : GrVkRenderTarget :=
  { compatClass := 3, framebufferHandle := 21, resources := [201, 202] }

/-- Sample non-sentinel viewport value. -/
def sampleViewportValue : VkViewport :=
  { x := 1, y := 2, width := 3, height := 4, minDepth := 0, maxDepth := 5 }

/-- Sample non-sentinel scissor value. -/
def sampleScissorValue : VkRect2D :=
  { offsetX := 0, offsetY := 0, extentWidth := 100, extentHeight := 50 }

/-- Sample non-sentinel blend-constant value. -/
def sampleBlendValue : BlendConstants := { c0 := 1, c1 := 2, c2 := 3, c3 := 4 }

/-- Sample idle base buffer with invalidated cache and empty tracking. -/
def sampleIdle : GrVkCommandBuffer :=
  { fCmdBuffer := 100, fIsActive := false, fActiveRenderPass := none,
    fBoundInputBuffers := List.replicate kMaxInputBuffers VK_NULL_HANDLE,
    fBoundIndexBuffer := VK_NULL_HANDLE,
    fCachedViewport := sentinelViewport, fCachedScissor := sentinelScissor,
    fCachedBlendConstant := sentinelBlendConstant,
    fTrackedResources := emptyTracked, fTrackedRecycledResources := emptyTracked,
    fNumResets := 0 }

/-- Sample Active base buffer. -/
def sampleActive : GrVkCommandBuffer := { sampleIdle with fIsActive := true }

/-- Sample idle primary buffer with no fence. -/
def samplePrimaryIdle : GrVkPrimaryCommandBuffer :=
  { toGrVkCommandBuffer := sampleIdle, fSubmitFence := none,
    fSecondaryCommandBuffers := [] }

/-- Sample Active primary buffer with no fence and no open render pass. -/
def samplePrimaryActive : GrVkPrimaryCommandBuffer :=
  { toGrVkCommandBuffer := sampleActive, fSubmitFence := none,
    fSecondaryCommandBuffers := [] }

/-- Sample idle primary buffer holding fence handle 7. -/
def samplePrimaryFenced : GrVkPrimaryCommandBuffer :=
  { samplePrimaryIdle with fSubmitFence := some 7 }

/-- Sample Active primary buffer with an open render pass. -/
def samplePrimaryInPass : GrVkPrimaryCommandBuffer :=
  { samplePrimaryActive with fActiveRenderPass := some sampleRenderPass }

/-- Sample recorded (not Active) secondary buffer bound to the compatible
sample render pass. -/
def sampleSecondary : GrVkSecondaryCommandBuffer :=
  { toGrVkCommandBuffer :=
      { sampleIdle with fCmdBuffer := 300,
                        fActiveRenderPass := some sampleRenderPass } }

/-- Sample image operands. -/
def sampleImageA : GrVkImage := { image := 31, currentLayout := 1, resource := 301 }

/-- Second sample image operand. -/
def sampleImageB : GrVkImage := { image := 32, currentLayout := 2, resource := 302 }

/-- Sample buffer operand. -/
def sampleBufA : GrVkGpuBuffer := { buffer := 41, size := 4096, resource := 401 }

/-- Second sample buffer operand. -/
def sampleBufB : GrVkGpuBuffer := { buffer := 42, size := 4096, resource := 402 }

/-- Sample vertex buffer. -/
def sampleVertexBuffer : GrVkVertexBuffer := { buffer := 5, offset := 0, resource := 42 }

/-- Sample index buffer. -/
def sampleIndexBuffer : GrVkIndexBuffer := { buffer := 6, offset := 0, resource := 43 }

/-- Sample semaphore that should still signal. -/
def semPendingSignal : SemResource :=
  { id := 501, semaphore := 51, flagSignal := true, flagWait := false }

/-- Sample semaphore that should no longer signal (already consumed). -/
def semConsumedSignal : SemResource :=
  { id := 502, semaphore := 52, flagSignal := false, flagWait := false }

/-- Sample semaphore that should still be waited on. -/
def semPendingWait : SemResource :=
  { id := 503, semaphore := 53, flagSignal := false, flagWait := true }

/-- Sample Active base buffer with an open render pass. -/
def sampleInPassBase : GrVkCommandBuffer :=
  { sampleActive with fActiveRenderPass := some sampleRenderPass }

/-- Sample Active secondary buffer bound to the sample render pass. -/
def sampleSecondaryActive : GrVkSecondaryCommandBuffer :=
  { toGrVkCommandBuffer :=
      { sampleActive with fCmdBuffer := 300,
                          fActiveRenderPass := some sampleRenderPass } }

/-- State produced by a rewind-only `reset` that brought the reset counter
to `n`: cached state invalidated, both tracking lists rewound with their
backing storage kept. -/
def rewoundState (s : GrVkCommandBuffer) (n : Nat) : GrVkCommandBuffer :=
  { s.invalidateState with
      fNumResets := n,
      fTrackedResources := s.fTrackedResources.rewind,
      fTrackedRecycledResources := s.fTrackedRecycledResources.rewind }

/-- State produced by a full `reset`: cached state invalidated, both
tracking lists deallocated and re-reserved, counter zeroed. -/
def fullResetState (s : GrVkCommandBuffer) : GrVkCommandBuffer :=
  { s.invalidateState with
      fNumResets := 0,
      fTrackedResources :=
        s.fTrackedResources.deallocate.setReserve kInitialTrackedResourcesCount,
      fTrackedRecycledResources :=
        s.fTrackedRecycledResources.deallocate.setReserve
          kInitialTrackedResourcesCount }

/-- C7: `finished()` on a primary buffer returns true without any device
query when no fence exists (never submitted, or the fence was destroyed
since); otherwise it returns true when the device reports the fence
signaled, false when the device reports not-ready, and any other fence
status is the fatal abort path. -/
theorem claim_C7_finished (p : GrVkPrimaryCommandBuffer) :
    (p.fSubmitFence = none → ∀ st, p.finished st = some (true, [])) ∧
    (∀ f : Nat, p.fSubmitFence = some f →
      p.finished FenceStatus.success = some (true, [Cmd.getFenceStatus f]) ∧
      p.finished FenceStatus.notReady = some (false, [Cmd.getFenceStatus f]) ∧
      ∀ c : Int, p.finished (FenceStatus.otherError c) = none) := by
  constructor
  · intro h st
    cases st <;> simp [GrVkPrimaryCommandBuffer.finished, h]
  · intro f h
    refine ⟨?_, ?_, ?_⟩ <;> simp [GrVkPrimaryCommandBuffer.finished, h]

/-- Witness for C7 at concrete buffers: one that never created a fence, one
holding fence handle 7. -/
theorem claim_C7_witness :
    samplePrimaryIdle.finished FenceStatus.notReady = some (true, []) ∧
    samplePrimaryFenced.finished FenceStatus.success = some (true, [Cmd.getFenceStatus 7]) ∧
    samplePrimaryFenced.finished FenceStatus.notReady = some (false, [Cmd.getFenceStatus 7]) ∧
    samplePrimaryFenced.finished (FenceStatus.otherError 5) = none :=
  ⟨(claim_C7_finished samplePrimaryIdle).1 rfl FenceStatus.notReady,
   ((claim_C7_finished samplePrimaryFenced).2 7 rfl).1,
   ((claim_C7_finished samplePrimaryFenced).2 7 rfl).2.1,
   ((claim_C7_finished samplePrimaryFenced).2 7 rfl).2.2 5⟩

/-- C8: in `beginRenderPass`, when the render pass has a stencil attachment
index the advertised clear-value count is two whenever any clear is required
and zero otherwise; with no stencil attachment it equals the render pass's
own clear-value count. -/
theorem claim_C8_beginRenderPass_clearValueCount (p : GrVkPrimaryCommandBuffer)
    (rp : GrVkRenderPass) (t : GrVkRenderTarget) (forSec : Bool)
    (hAct : p.fIsActive = true) (hNoRp : p.fActiveRenderPass = none)
    (hCompat : rp.compatClass = t.compatClass) :
    ∃ p1 tr, p.beginRenderPass rp t forSec = some (p1, tr) ∧
      (∀ i, rp.stencilIdx = some i →
        advertisedClearValueCounts tr = [if rp.clearValueCnt ≠ 0 then 2 else 0]) ∧
      (rp.stencilIdx = none →
        advertisedClearValueCounts tr = [rp.clearValueCnt]) := by
  unfold GrVkPrimaryCommandBuffer.beginRenderPass
  rw [if_pos ⟨hAct, hNoRp, hCompat⟩]
  refine ⟨_, _, rfl, ?_, ?_⟩
  · intro i hi
    simp [advertisedClearValueCounts, hi]
  · intro hnone
    simp [advertisedClearValueCounts, hnone]

/-- Witness for C8: the sample Active primary opening the stencil-carrying
sample render pass on the compatible sample target. -/
theorem claim_C8_witness :
    ∃ p1 tr,
      samplePrimaryActive.beginRenderPass sampleStencilRenderPass sampleTarget false =
        some (p1, tr) ∧
      (∀ i, sampleStencilRenderPass.stencilIdx = some i →
        advertisedClearValueCounts tr =
          [if sampleStencilRenderPass.clearValueCnt ≠ 0 then 2 else 0]) ∧
      (sampleStencilRenderPass.stencilIdx = none →
        advertisedClearValueCounts tr = [sampleStencilRenderPass.clearValueCnt]) :=
  claim_C8_beginRenderPass_clearValueCount samplePrimaryActive
    sampleStencilRenderPass sampleTarget false rfl rfl rfl

/-- C10: immediately after `invalidateState`, a `setBlendConstants` call
whose four components are each the in-domain float `-1.0` compares
byte-equal to the sentinel and emits no native command, so invalidation
does not force re-emission for blend constants. -/
theorem claim_C10_blend_sentinel_no_emit (s : GrVkCommandBuffer)
    (hAct : s.fIsActive = true) :
    s.invalidateState.setBlendConstants
        { c0 := negOneFloatBits, c1 := negOneFloatBits,
          c2 := negOneFloatBits, c3 := negOneFloatBits } =
      some (s.invalidateState, []) := by
  simp [GrVkCommandBuffer.setBlendConstants, GrVkCommandBuffer.invalidateState,
        sentinelBlendConstant, hAct]

/-- Witness for C10 at the sample Active buffer. -/
theorem claim_C10_witness :
    sampleActive.invalidateState.setBlendConstants
        { c0 := negOneFloatBits, c1 := negOneFloatBits,
          c2 := negOneFloatBits, c3 := negOneFloatBits } =
      some (sampleActive.invalidateState, []) :=
  claim_C10_blend_sentinel_no_emit sampleActive rfl

/-- C9: `pipelineBarrier` and every outside-render-pass transfer/clear
operation assert an Active buffer and no open render pass: with a render
pass open each returns the precondition-violation result `none`, and under
the stated preconditions each succeeds. -/
theorem claim_C9_outside_pass_ops :
    (∀ (s : GrVkCommandBuffer) (rp : GrVkRenderPass) (a b : Nat) (br : Bool)
        (bt : BarrierType), s.fActiveRenderPass = some rp →
        s.pipelineBarrier a b br bt = none) ∧
    (∀ (s : GrVkCommandBuffer) (a b : Nat) (br : Bool) (bt : BarrierType),
        s.fIsActive = true → s.fActiveRenderPass = none →
        (s.pipelineBarrier a b br bt).isSome = true) ∧
    (∀ (p : GrVkPrimaryCommandBuffer) (rp : GrVkRenderPass) (x y : GrVkImage),
        p.fActiveRenderPass = some rp → p.copyImage x y = none) ∧
    (∀ (p : GrVkPrimaryCommandBuffer) (x y : GrVkImage),
        p.fIsActive = true → p.fActiveRenderPass = none →
        (p.copyImage x y).isSome = true) ∧
    (∀ (p : GrVkPrimaryCommandBuffer) (rp : GrVkRenderPass) (r1 : GrVkResource)
        (i1 : Nat) (r2 : GrVkResource) (i2 : Nat),
        p.fActiveRenderPass = some rp → p.blitImage r1 i1 r2 i2 = none) ∧
    (∀ (p : GrVkPrimaryCommandBuffer) (r1 : GrVkResource) (i1 : Nat)
        (r2 : GrVkResource) (i2 : Nat),
        p.fIsActive = true → p.fActiveRenderPass = none →
        (p.blitImage r1 i1 r2 i2).isSome = true) ∧
    (∀ (p : GrVkPrimaryCommandBuffer) (rp : GrVkRenderPass) (x : GrVkImage)
        (d : GrVkGpuBuffer), p.fActiveRenderPass = some rp →
        p.copyImageToBuffer x d = none) ∧
    (∀ (p : GrVkPrimaryCommandBuffer) (x : GrVkImage) (d : GrVkGpuBuffer),
        p.fIsActive = true → p.fActiveRenderPass = none →
        (p.copyImageToBuffer x d).isSome = true) ∧
    (∀ (p : GrVkPrimaryCommandBuffer) (rp : GrVkRenderPass) (sb : GrVkGpuBuffer)
        (x : GrVkImage), p.fActiveRenderPass = some rp →
        p.copyBufferToImage sb x = none) ∧
    (∀ (p : GrVkPrimaryCommandBuffer) (sb : GrVkGpuBuffer) (x : GrVkImage),
        p.fIsActive = true → p.fActiveRenderPass = none →
        (p.copyBufferToImage sb x).isSome = true) ∧
    (∀ (p : GrVkPrimaryCommandBuffer) (rp : GrVkRenderPass)
        (sb db : GrVkGpuBuffer) (regions : List VkBufferCopy),
        p.fActiveRenderPass = some rp → p.copyBuffer sb db regions = none) ∧
    (∀ (p : GrVkPrimaryCommandBuffer) (sb db : GrVkGpuBuffer)
        (regions : List VkBufferCopy),
        p.fIsActive = true → p.fActiveRenderPass = none →
        regions.all (fun region =>
          0 < region.size ∧ region.srcOffset < sb.size ∧
          region.dstOffset < db.size ∧
          region.srcOffset + region.size ≤ sb.size ∧
          region.dstOffset + region.size ≤ db.size) = true →
        (p.copyBuffer sb db regions).isSome = true) ∧
    (∀ (p : GrVkPrimaryCommandBuffer) (rp : GrVkRenderPass) (d : GrVkGpuBuffer)
        (off sz : Nat), p.fActiveRenderPass = some rp →
        p.updateBuffer d off sz = none) ∧
    (∀ (p : GrVkPrimaryCommandBuffer) (d : GrVkGpuBuffer) (off sz : Nat),
        p.fIsActive = true → p.fActiveRenderPass = none → off % 4 = 0 →
        sz ≤ 65536 → sz % 4 = 0 → (p.updateBuffer d off sz).isSome = true) ∧
    (∀ (p : GrVkPrimaryCommandBuffer) (rp : GrVkRenderPass) (x : GrVkImage),
        p.fActiveRenderPass = some rp → p.clearColorImage x = none) ∧
    (∀ (p : GrVkPrimaryCommandBuffer) (x : GrVkImage),
        p.fIsActive = true → p.fActiveRenderPass = none →
        (p.clearColorImage x).isSome = true) ∧
    (∀ (p : GrVkPrimaryCommandBuffer) (rp : GrVkRenderPass) (x : GrVkImage),
        p.fActiveRenderPass = some rp → p.clearDepthStencilImage x = none) ∧
    (∀ (p : GrVkPrimaryCommandBuffer) (x : GrVkImage),
        p.fIsActive = true → p.fActiveRenderPass = none →
        (p.clearDepthStencilImage x).isSome = true) ∧
    (∀ (p : GrVkPrimaryCommandBuffer) (rp : GrVkRenderPass) (x y : GrVkImage),
        p.fActiveRenderPass = some rp → p.resolveImage x y = none) ∧
    (∀ (p : GrVkPrimaryCommandBuffer) (x y : GrVkImage),
        p.fIsActive = true → p.fActiveRenderPass = none →
        (p.resolveImage x y).isSome = true) := by
  refine ⟨?_, ?_, ?_, ?_, ?_, ?_, ?_, ?_, ?_, ?_, ?_, ?_, ?_, ?_, ?_, ?_,
          ?_, ?_, ?_, ?_⟩ <;>
    intros <;>
    simp_all [GrVkCommandBuffer.pipelineBarrier,
      GrVkPrimaryCommandBuffer.copyImage, GrVkPrimaryCommandBuffer.blitImage,
      GrVkPrimaryCommandBuffer.copyImageToBuffer,
      GrVkPrimaryCommandBuffer.copyBufferToImage,
      GrVkPrimaryCommandBuffer.copyBuffer, GrVkPrimaryCommandBuffer.updateBuffer,
      GrVkPrimaryCommandBuffer.clearColorImage,
      GrVkPrimaryCommandBuffer.clearDepthStencilImage,
      GrVkPrimaryCommandBuffer.resolveImage]

/-- Witness for C9: each operation rejected on the sample buffer with an
open render pass, and succeeding on the sample Active buffer without
one. -/
theorem claim_C9_witness :
    sampleInPassBase.pipelineBarrier 1 2 true BarrierType.kMemory_BarrierType = none ∧
    (sampleActive.pipelineBarrier 1 2 true BarrierType.kMemory_BarrierType).isSome = true ∧
    samplePrimaryInPass.copyImage sampleImageA sampleImageB = none ∧
    (samplePrimaryActive.copyImage sampleImageA sampleImageB).isSome = true ∧
    samplePrimaryInPass.blitImage 301 31 302 32 = none ∧
    (samplePrimaryActive.blitImage 301 31 302 32).isSome = true ∧
    samplePrimaryInPass.copyImageToBuffer sampleImageA sampleBufA = none ∧
    (samplePrimaryActive.copyImageToBuffer sampleImageA sampleBufA).isSome = true ∧
    samplePrimaryInPass.copyBufferToImage sampleBufA sampleImageA = none ∧
    (samplePrimaryActive.copyBufferToImage sampleBufA sampleImageA).isSome = true ∧
    samplePrimaryInPass.copyBuffer sampleBufA sampleBufB [⟨0, 0, 16⟩] = none ∧
    (samplePrimaryActive.copyBuffer sampleBufA sampleBufB [⟨0, 0, 16⟩]).isSome = true ∧
    samplePrimaryInPass.updateBuffer sampleBufA 4 16 = none ∧
    (samplePrimaryActive.updateBuffer sampleBufA 4 16).isSome = true ∧
    samplePrimaryInPass.clearColorImage sampleImageA = none ∧
    (samplePrimaryActive.clearColorImage sampleImageA).isSome = true ∧
    samplePrimaryInPass.clearDepthStencilImage sampleImageA = none ∧
    (samplePrimaryActive.clearDepthStencilImage sampleImageA).isSome = true ∧
    samplePrimaryInPass.resolveImage sampleImageA sampleImageB = none ∧
    (samplePrimaryActive.resolveImage sampleImageA sampleImageB).isSome = true :=
  ⟨claim_C9_outside_pass_ops.1 sampleInPassBase sampleRenderPass 1 2 true
      BarrierType.kMemory_BarrierType rfl,
   claim_C9_outside_pass_ops.2.1 sampleActive 1 2 true
      BarrierType.kMemory_BarrierType rfl rfl,
   claim_C9_outside_pass_ops.2.2.1 samplePrimaryInPass sampleRenderPass
      sampleImageA sampleImageB rfl,
   claim_C9_outside_pass_ops.2.2.2.1 samplePrimaryActive sampleImageA
      sampleImageB rfl rfl,
   claim_C9_outside_pass_ops.2.2.2.2.1 samplePrimaryInPass sampleRenderPass
      301 31 302 32 rfl,
   claim_C9_outside_pass_ops.2.2.2.2.2.1 samplePrimaryActive 301 31 302 32 rfl rfl,
   claim_C9_outside_pass_ops.2.2.2.2.2.2.1 samplePrimaryInPass sampleRenderPass
      sampleImageA sampleBufA rfl,
   claim_C9_outside_pass_ops.2.2.2.2.2.2.2.1 samplePrimaryActive sampleImageA
      sampleBufA rfl rfl,
   claim_C9_outside_pass_ops.2.2.2.2.2.2.2.2.1 samplePrimaryInPass
      sampleRenderPass sampleBufA sampleImageA rfl,
   claim_C9_outside_pass_ops.2.2.2.2.2.2.2.2.2.1 samplePrimaryActive sampleBufA
      sampleImageA rfl rfl,
   claim_C9_outside_pass_ops.2.2.2.2.2.2.2.2.2.2.1 samplePrimaryInPass
      sampleRenderPass sampleBufA sampleBufB [⟨0, 0, 16⟩] rfl,
   claim_C9_outside_pass_ops.2.2.2.2.2.2.2.2.2.2.2.1 samplePrimaryActive
      sampleBufA sampleBufB [⟨0, 0, 16⟩] rfl rfl (by decide),
   claim_C9_outside_pass_ops.2.2.2.2.2.2.2.2.2.2.2.2.1 samplePrimaryInPass
      sampleRenderPass sampleBufA 4 16 rfl,
   claim_C9_outside_pass_ops.2.2.2.2.2.2.2.2.2.2.2.2.2.1 samplePrimaryActive
      sampleBufA 4 16 rfl rfl (by decide) (by decide) (by decide),
   claim_C9_outside_pass_ops.2.2.2.2.2.2.2.2.2.2.2.2.2.2.1 samplePrimaryInPass
      sampleRenderPass sampleImageA rfl,
   claim_C9_outside_pass_ops.2.2.2.2.2.2.2.2.2.2.2.2.2.2.2.1 samplePrimaryActive
      sampleImageA rfl rfl,
   claim_C9_outside_pass_ops.2.2.2.2.2.2.2.2.2.2.2.2.2.2.2.2.1
      samplePrimaryInPass sampleRenderPass sampleImageA rfl,
   claim_C9_outside_pass_ops.2.2.2.2.2.2.2.2.2.2.2.2.2.2.2.2.2.1
      samplePrimaryActive sampleImageA rfl rfl,
   claim_C9_outside_pass_ops.2.2.2.2.2.2.2.2.2.2.2.2.2.2.2.2.2.2.1
      samplePrimaryInPass sampleRenderPass sampleImageA sampleImageB rfl,
   claim_C9_outside_pass_ops.2.2.2.2.2.2.2.2.2.2.2.2.2.2.2.2.2.2.2
      samplePrimaryActive sampleImageA sampleImageB rfl rfl⟩

/-- A `reset` whose pre-incremented counter stays within the threshold is a
rewind. -/
theorem reset_rewind_step (s : GrVkCommandBuffer) (K : Nat)
    (hA : s.fIsActive = false) (hle : s.fNumResets + 1 ≤ K) :
    s.reset K = some (rewoundState s (s.fNumResets + 1), ResetKind.rewind,
      [Cmd.resetCommandBuffer]) := by
  unfold GrVkCommandBuffer.reset
  rw [if_neg (by simp [hA]), if_neg (by omega)]
  rfl

/-- A `reset` whose pre-incremented counter exceeds the threshold is a full
deallocate-and-reserve. -/
theorem reset_full_step (s : GrVkCommandBuffer) (K : Nat)
    (hA : s.fIsActive = false) (hgt : K < s.fNumResets + 1) :
    s.reset K = some (fullResetState s, ResetKind.full,
      [Cmd.resetCommandBuffer]) := by
  unfold GrVkCommandBuffer.reset
  rw [if_neg (by simp [hA]), if_pos (by omega)]
  rfl

/-- Rewinding an already rewound-and-invalidated state again collapses. -/
theorem rewoundState_rewoundState (s : GrVkCommandBuffer) (n m : Nat) :
    rewoundState (rewoundState s n) m = rewoundState s m := by
  simp [rewoundState, GrVkCommandBuffer.invalidateState, TrackedList.rewind,
        List.map_map, Function.comp]

/-- During the rewind phase (at most `K` resets from a zero counter), every
reset is a rewind and the state after `j` of them is the rewound state with
counter `j`. -/
theorem resetIter_rewind_phase (K : Nat) (s : GrVkCommandBuffer)
    (hA : s.fIsActive = false) (h0 : s.fNumResets = 0) :
    ∀ j, j ≤ K →
      resetIter K s j =
        some (if j = 0 then s else rewoundState s j,
              List.replicate j ResetKind.rewind) := by
  intro j
  induction j with
  | zero => intro _; simp [resetIter]
  | succ n ih =>
    intro hle
    have hn : n ≤ K := by omega
    have step : resetIter K s (n + 1) =
        match resetIter K s n with
        | none => none
        | some (s1, kinds) =>
          match s1.reset K with
          | none => none
          | some (s2, kind, _) => some (s2, kinds ++ [kind]) := rfl
    rw [step, ih hn]
    by_cases hn0 : n = 0
    · subst hn0
      have h1 : s.reset K = some (rewoundState s (s.fNumResets + 1),
          ResetKind.rewind, [Cmd.resetCommandBuffer]) :=
        reset_rewind_step s K hA (by omega)
      rw [h0] at h1
      simp [h1]
    · have hA' : (rewoundState s n).fIsActive = false := by
        simp [rewoundState, GrVkCommandBuffer.invalidateState, hA]
      have hN' : (rewoundState s n).fNumResets = n := by
        simp [rewoundState]
      have h1 := reset_rewind_step (rewoundState s n) K hA' (by omega)
      rw [hN'] at h1
      rw [rewoundState_rewoundState] at h1
      simp [hn0, h1, List.replicate_succ']

/-- C4: starting from a zero reset counter, calling `reset` `K + 1` times
consecutively (with `K` the full-reset threshold) performs `K` rewind-only
resets that keep the backing storage of the two tracking lists, followed by
exactly one full deallocate-and-reserve whose counter returns to zero. -/
theorem claim_C4_reset_storage_policy (K : Nat) (s : GrVkCommandBuffer)
    (hA : s.fIsActive = false) (h0 : s.fNumResets = 0) :
    ∃ sFin, resetIter K s (K + 1) =
        some (sFin, List.replicate K ResetKind.rewind ++ [ResetKind.full]) ∧
      sFin.fNumResets = 0 ∧
      sFin.fTrackedResources =
        { items := [], capacity := kInitialTrackedResourcesCount } ∧
      sFin.fTrackedRecycledResources =
        { items := [], capacity := kInitialTrackedResourcesCount } ∧
      (∀ j, 1 ≤ j → j ≤ K → ∃ sj, resetIter K s j =
          some (sj, List.replicate j ResetKind.rewind) ∧
          sj.fTrackedResources.items = [] ∧
          sj.fTrackedResources.capacity = s.fTrackedResources.capacity ∧
          sj.fTrackedRecycledResources.capacity =
            s.fTrackedRecycledResources.capacity) := by
  have phase := resetIter_rewind_phase K s hA h0
  have hKs := phase K (le_refl K)
  have hmidA : (if K = 0 then s else rewoundState s K).fIsActive = false := by
    by_cases h : K = 0 <;>
      simp [h, rewoundState, GrVkCommandBuffer.invalidateState, hA]
  have hmidN : (if K = 0 then s else rewoundState s K).fNumResets = K := by
    by_cases h : K = 0 <;> simp [h, h0, rewoundState]
  have hfull := reset_full_step (if K = 0 then s else rewoundState s K) K hmidA
    (by omega)
  have step : resetIter K s (K + 1) =
      match resetIter K s K with
      | none => none
      | some (s1, kinds) =>
        match s1.reset K with
        | none => none
        | some (s2, kind, _) => some (s2, kinds ++ [kind]) := rfl
  refine ⟨fullResetState (if K = 0 then s else rewoundState s K), ?_, ?_, ?_, ?_, ?_⟩
  · rw [step, hKs]
    simp [hfull]
  · simp [fullResetState]
  · simp [fullResetState, TrackedList.deallocate, TrackedList.setReserve]
  · simp [fullResetState, TrackedList.deallocate, TrackedList.setReserve]
  · intro j hj1 hj2
    refine ⟨rewoundState s j, ?_, ?_, ?_, ?_⟩
    · rw [phase j hj2, if_neg (by omega)]
    · simp [rewoundState, TrackedList.rewind]
    · simp [rewoundState, TrackedList.rewind]
    · simp [rewoundState, TrackedList.rewind]

/-- Witness for C4 at the sample idle buffer and threshold 3. -/
theorem claim_C4_witness :
    ∃ sFin, resetIter 3 sampleIdle (3 + 1) =
        some (sFin, List.replicate 3 ResetKind.rewind ++ [ResetKind.full]) ∧
      sFin.fNumResets = 0 ∧
      sFin.fTrackedResources =
        { items := [], capacity := kInitialTrackedResourcesCount } ∧
      sFin.fTrackedRecycledResources =
        { items := [], capacity := kInitialTrackedResourcesCount } ∧
      (∀ j, 1 ≤ j → j ≤ 3 → ∃ sj, resetIter 3 sampleIdle j =
          some (sj, List.replicate j ResetKind.rewind) ∧
          sj.fTrackedResources.items = [] ∧
          sj.fTrackedResources.capacity = sampleIdle.fTrackedResources.capacity ∧
          sj.fTrackedRecycledResources.capacity =
            sampleIdle.fTrackedRecycledResources.capacity) :=
  claim_C4_reset_storage_policy 3 sampleIdle rfl rfl

/-- Reading back the slot just written by `List.set` on an in-range index
returns the written value. -/
theorem getD_set_self : ∀ (l : List Nat) (i : Nat) (v : Nat), i < l.length →
    (l.set i v).getD i VK_NULL_HANDLE = v := by
  intro l
  induction l with
  | nil => intro i v h; simp at h
  | cons a t ih =>
    intro i v h
    cases i with
    | zero => rfl
    | succ n =>
      have : n < t.length := by simpa using h
      simpa [List.set, List.getD] using ih n v this

/-- A `bindInputBuffer` call whose handle equals the cached binding for its
slot changes nothing and emits nothing. -/
theorem bindInputBuffer_cached (s : GrVkCommandBuffer) (binding : Nat)
    (vb : GrVkVertexBuffer) (h1 : vb.buffer ≠ VK_NULL_HANDLE)
    (h2 : binding < kMaxInputBuffers)
    (h3 : vb.buffer = s.fBoundInputBuffers.getD binding VK_NULL_HANDLE) :
    s.bindInputBuffer binding vb = some (s, []) := by
  unfold GrVkCommandBuffer.bindInputBuffer
  rw [if_neg h1, if_neg (by omega), if_neg (by simp [h3])]

/-- A run of `bindInputBuffer` calls whose handle equals the cached binding
is entirely skipped. -/
theorem bindInputBufferRun_cached (binding : Nat) (vb : GrVkVertexBuffer)
    (h1 : vb.buffer ≠ VK_NULL_HANDLE) (h2 : binding < kMaxInputBuffers) :
    ∀ (n : Nat) (s : GrVkCommandBuffer),
      vb.buffer = s.fBoundInputBuffers.getD binding VK_NULL_HANDLE →
      bindInputBufferRun binding vb s n = some (s, []) := by
  intro n
  induction n with
  | zero => intro s _; rfl
  | succ m ih =>
    intro s h3
    have step : bindInputBufferRun binding vb s (m + 1) =
        match s.bindInputBuffer binding vb with
        | none => none
        | some (s1, tr1) =>
          match bindInputBufferRun binding vb s1 m with
          | none => none
          | some (s2, tr2) => some (s2, tr1 ++ tr2) := rfl
    rw [step, bindInputBuffer_cached s binding vb h1 h2 h3]
    simp [ih s h3]

/-- A `bindIndexBuffer` call whose handle equals the cached index binding
changes nothing and emits nothing. -/
theorem bindIndexBuffer_cached (s : GrVkCommandBuffer) (ib : GrVkIndexBuffer)
    (h1 : ib.buffer ≠ VK_NULL_HANDLE) (h3 : ib.buffer = s.fBoundIndexBuffer) :
    s.bindIndexBuffer ib = some (s, []) := by
  unfold GrVkCommandBuffer.bindIndexBuffer
  rw [if_neg h1, if_neg (by simp [h3])]

/-- A run of `bindIndexBuffer` calls whose handle equals the cached binding
is entirely skipped. -/
theorem bindIndexBufferRun_cached (ib : GrVkIndexBuffer)
    (h1 : ib.buffer ≠ VK_NULL_HANDLE) :
    ∀ (n : Nat) (s : GrVkCommandBuffer), ib.buffer = s.fBoundIndexBuffer →
      bindIndexBufferRun ib s n = some (s, []) := by
  intro n
  induction n with
  | zero => intro s _; rfl
  | succ m ih =>
    intro s h3
    have step : bindIndexBufferRun ib s (m + 1) =
        match s.bindIndexBuffer ib with
        | none => none
        | some (s1, tr1) =>
          match bindIndexBufferRun ib s1 m with
          | none => none
          | some (s2, tr2) => some (s2, tr1 ++ tr2) := rfl
    rw [step, bindIndexBuffer_cached s ib h1 h3]
    simp [ih s h3]

/-- C2 counterexample: on a fresh Active buffer, two consecutive
`bindInputBuffer` calls with the same buffer emit the native bind once and
append the buffer's resource once — not on every call as the claim states,
because `addResource` sits inside the same branch as the skipped bind. -/
theorem claim_C2_counterexample :
    (bindInputBufferRun 0 sampleVertexBuffer sampleActive 2).map
        (fun r => (r.1.fTrackedResources.items, r.2)) =
      some ([42], [Cmd.cmdBindVertexBuffers 0 5 0]) ∧
    ([42] : List GrVkResource) ≠ [42, 42] := by
  exact ⟨by decide, by decide⟩

/-- C2 amended: a run of repeated `bindInputBuffer` (or `bindIndexBuffer`)
calls whose handle differs from the cached binding at the start emits the
native bind exactly once, on the first call, and appends the buffer's
resource exactly once, on that same first call; the calls whose bind is
skipped change nothing and track nothing. -/
theorem claim_C2_bind_dedup_and_tracking :
    (∀ (s : GrVkCommandBuffer) (binding : Nat) (vb : GrVkVertexBuffer) (n : Nat),
        1 ≤ n → vb.buffer ≠ VK_NULL_HANDLE → binding < kMaxInputBuffers →
        s.fBoundInputBuffers.length = kMaxInputBuffers →
        vb.buffer ≠ s.fBoundInputBuffers.getD binding VK_NULL_HANDLE →
        bindInputBufferRun binding vb s n =
          some ({ s.addResource vb.resource with
                    fBoundInputBuffers := s.fBoundInputBuffers.set binding vb.buffer },
                [Cmd.cmdBindVertexBuffers binding vb.buffer vb.offset])) ∧
    (∀ (s : GrVkCommandBuffer) (ib : GrVkIndexBuffer) (n : Nat),
        1 ≤ n → ib.buffer ≠ VK_NULL_HANDLE → ib.buffer ≠ s.fBoundIndexBuffer →
        bindIndexBufferRun ib s n =
          some ({ s.addResource ib.resource with fBoundIndexBuffer := ib.buffer },
                [Cmd.cmdBindIndexBuffer ib.buffer ib.offset])) := by
  constructor
  · intro s binding vb n hn h1 h2 hLen h3
    obtain ⟨m, rfl⟩ : ∃ m, n = m + 1 := ⟨n - 1, by omega⟩
    have first : s.bindInputBuffer binding vb =
        some ({ s.addResource vb.resource with
                  fBoundInputBuffers := s.fBoundInputBuffers.set binding vb.buffer },
              [Cmd.cmdBindVertexBuffers binding vb.buffer vb.offset]) := by
      unfold GrVkCommandBuffer.bindInputBuffer
      rw [if_neg h1, if_neg (by omega), if_pos h3]
    have step : bindInputBufferRun binding vb s (m + 1) =
        match s.bindInputBuffer binding vb with
        | none => none
        | some (s1, tr1) =>
          match bindInputBufferRun binding vb s1 m with
          | none => none
          | some (s2, tr2) => some (s2, tr1 ++ tr2) := rfl
    have rest : bindInputBufferRun binding vb
        { s.addResource vb.resource with
            fBoundInputBuffers := s.fBoundInputBuffers.set binding vb.buffer } m =
        some ({ s.addResource vb.resource with
                  fBoundInputBuffers := s.fBoundInputBuffers.set binding vb.buffer },
              []) := by
      apply bindInputBufferRun_cached binding vb h1 h2
      show vb.buffer = (s.fBoundInputBuffers.set binding vb.buffer).getD binding
        VK_NULL_HANDLE
      exact (getD_set_self s.fBoundInputBuffers binding vb.buffer (by omega)).symm
    rw [step, first]
    simp [rest]
  · intro s ib n hn h1 h3
    obtain ⟨m, rfl⟩ : ∃ m, n = m + 1 := ⟨n - 1, by omega⟩
    have first : s.bindIndexBuffer ib =
        some ({ s.addResource ib.resource with fBoundIndexBuffer := ib.buffer },
              [Cmd.cmdBindIndexBuffer ib.buffer ib.offset]) := by
      unfold GrVkCommandBuffer.bindIndexBuffer
      rw [if_neg h1, if_pos h3]
    have step : bindIndexBufferRun ib s (m + 1) =
        match s.bindIndexBuffer ib with
        | none => none
        | some (s1, tr1) =>
          match bindIndexBufferRun ib s1 m with
          | none => none
          | some (s2, tr2) => some (s2, tr1 ++ tr2) := rfl
    have rest : bindIndexBufferRun ib
        { s.addResource ib.resource with fBoundIndexBuffer := ib.buffer } m =
        some ({ s.addResource ib.resource with fBoundIndexBuffer := ib.buffer },
              []) :=
      bindIndexBufferRun_cached ib h1 m _ rfl
    rw [step, first]
    simp [rest]

/-- Witness for the amended C2: three repeated binds of the sample vertex
buffer and of the sample index buffer on the fresh Active buffer. -/
theorem claim_C2_witness :
    bindInputBufferRun 0 sampleVertexBuffer sampleActive 3 =
      some ({ sampleActive.addResource sampleVertexBuffer.resource with
                fBoundInputBuffers :=
                  sampleActive.fBoundInputBuffers.set 0 sampleVertexBuffer.buffer },
            [Cmd.cmdBindVertexBuffers 0 sampleVertexBuffer.buffer
               sampleVertexBuffer.offset]) ∧
    bindIndexBufferRun sampleIndexBuffer sampleActive 3 =
      some ({ sampleActive.addResource sampleIndexBuffer.resource with
                fBoundIndexBuffer := sampleIndexBuffer.buffer },
            [Cmd.cmdBindIndexBuffer sampleIndexBuffer.buffer
               sampleIndexBuffer.offset]) :=
  ⟨claim_C2_bind_dedup_and_tracking.1 sampleActive 0 sampleVertexBuffer 3
      (by decide) (by decide) (by decide) (by decide) (by decide),
   claim_C2_bind_dedup_and_tracking.2 sampleActive sampleIndexBuffer 3
      (by decide) (by decide) (by decide)⟩

/-- A `setViewport` call whose argument equals the cached viewport changes
nothing and emits nothing. -/
theorem setViewport_cached (s : GrVkCommandBuffer) (v : VkViewport)
    (hAct : s.fIsActive = true) (hv : s.fCachedViewport = v) :
    s.setViewport 0 1 v = some (s, []) := by
  unfold GrVkCommandBuffer.setViewport
  rw [if_pos ⟨hAct, rfl⟩, if_neg (by simp [hv])]

/-- A run of `setViewport` calls whose argument equals the cached viewport
is entirely skipped. -/
theorem setViewportRun_cached (v : VkViewport) :
    ∀ (n : Nat) (s : GrVkCommandBuffer), s.fIsActive = true →
      s.fCachedViewport = v → setViewportRun v s n = some (s, []) := by
  intro n
  induction n with
  | zero => intro s _ _; rfl
  | succ m ih =>
    intro s hA hv
    have step : setViewportRun v s (m + 1) =
        match s.setViewport 0 1 v with
        | none => none
        | some (s1, tr1) =>
          match setViewportRun v s1 m with
          | none => none
          | some (s2, tr2) => some (s2, tr1 ++ tr2) := rfl
    rw [step, setViewport_cached s v hA hv]
    simp [ih s hA hv]

/-- A `setScissor` call whose argument equals the cached scissor changes
nothing and emits nothing. -/
theorem setScissor_cached (s : GrVkCommandBuffer) (r : VkRect2D)
    (hAct : s.fIsActive = true) (hr : s.fCachedScissor = r) :
    s.setScissor 0 1 r = some (s, []) := by
  unfold GrVkCommandBuffer.setScissor
  rw [if_pos ⟨hAct, rfl⟩, if_neg (by simp [hr])]

/-- A run of `setScissor` calls whose argument equals the cached scissor is
entirely skipped. -/
theorem setScissorRun_cached (r : VkRect2D) :
    ∀ (n : Nat) (s : GrVkCommandBuffer), s.fIsActive = true →
      s.fCachedScissor = r → setScissorRun r s n = some (s, []) := by
  intro n
  induction n with
  | zero => intro s _ _; rfl
  | succ m ih =>
    intro s hA hr
    have step : setScissorRun r s (m + 1) =
        match s.setScissor 0 1 r with
        | none => none
        | some (s1, tr1) =>
          match setScissorRun r s1 m with
          | none => none
          | some (s2, tr2) => some (s2, tr1 ++ tr2) := rfl
    rw [step, setScissor_cached s r hA hr]
    simp [ih s hA hr]

/-- A `setBlendConstants` call whose argument equals the cached constants
changes nothing and emits nothing. -/
theorem setBlendConstants_cached (s : GrVkCommandBuffer) (c : BlendConstants)
    (hAct : s.fIsActive = true) (hc : s.fCachedBlendConstant = c) :
    s.setBlendConstants c = some (s, []) := by
  unfold GrVkCommandBuffer.setBlendConstants
  rw [if_pos hAct, if_neg (by simp [hc])]

/-- A run of `setBlendConstants` calls whose argument equals the cached
constants is entirely skipped. -/
theorem setBlendConstantsRun_cached (c : BlendConstants) :
    ∀ (n : Nat) (s : GrVkCommandBuffer), s.fIsActive = true →
      s.fCachedBlendConstant = c → setBlendConstantsRun c s n = some (s, []) := by
  intro n
  induction n with
  | zero => intro s _ _; rfl
  | succ m ih =>
    intro s hA hc
    have step : setBlendConstantsRun c s (m + 1) =
        match s.setBlendConstants c with
        | none => none
        | some (s1, tr1) =>
          match setBlendConstantsRun c s1 m with
          | none => none
          | some (s2, tr2) => some (s2, tr1 ++ tr2) := rfl
    rw [step, setBlendConstants_cached s c hA hc]
    simp [ih s hA hc]

/-- C5 counterexample: on an Active buffer immediately after
`invalidateState`, a run of two repeated `setBlendConstants` calls with the
in-domain value (-1.0, -1.0, -1.0, -1.0) emits zero native commands, not
exactly one, because the argument is byte-equal to the sentinel cache from
the start of the run. -/
theorem claim_C5_counterexample :
    (setBlendConstantsRun sentinelBlendConstant sampleActive.invalidateState 2).map
        (fun r => r.2.length) = some 0 ∧ (0 : Nat) ≠ 1 := by
  exact ⟨by decide, by decide⟩

/-- C5 amended: for every run of repeated `setViewport`, `setScissor` or
`setBlendConstants` calls on an Active buffer with a byte-identical value
each time, the native state command is emitted at most once across the
repeats: exactly once — on the first call — when the value differs bytewise
from the cached value at the start of the run, and zero times when it
already equals the cache; afterwards the cached value equals the
argument. -/
theorem claim_C5_set_state_dedup :
    (∀ (s : GrVkCommandBuffer) (v : VkViewport) (n : Nat), 1 ≤ n →
      s.fIsActive = true →
      setViewportRun v s n = some ({ s with fCachedViewport := v },
        if v = s.fCachedViewport then [] else [Cmd.cmdSetViewport 0 v])) ∧
    (∀ (s : GrVkCommandBuffer) (r : VkRect2D) (n : Nat), 1 ≤ n →
      s.fIsActive = true →
      setScissorRun r s n = some ({ s with fCachedScissor := r },
        if r = s.fCachedScissor then [] else [Cmd.cmdSetScissor 0 r])) ∧
    (∀ (s : GrVkCommandBuffer) (c : BlendConstants) (n : Nat), 1 ≤ n →
      s.fIsActive = true →
      setBlendConstantsRun c s n = some ({ s with fCachedBlendConstant := c },
        if c = s.fCachedBlendConstant then [] else [Cmd.cmdSetBlendConstants c])) := by
  refine ⟨?_, ?_, ?_⟩
  · intro s v n hn hA
    obtain ⟨m, rfl⟩ : ∃ m, n = m + 1 := ⟨n - 1, by omega⟩
    by_cases hv : v = s.fCachedViewport
    · rw [if_pos hv]
      subst hv
      exact setViewportRun_cached _ (m + 1) s hA rfl
    · rw [if_neg hv]
      have first : s.setViewport 0 1 v =
          some ({ s with fCachedViewport := v }, [Cmd.cmdSetViewport 0 v]) := by
        unfold GrVkCommandBuffer.setViewport
        rw [if_pos ⟨hA, rfl⟩, if_pos hv]
      have step : setViewportRun v s (m + 1) =
          match s.setViewport 0 1 v with
          | none => none
          | some (s1, tr1) =>
            match setViewportRun v s1 m with
            | none => none
            | some (s2, tr2) => some (s2, tr1 ++ tr2) := rfl
      have rest := setViewportRun_cached v m { s with fCachedViewport := v } hA rfl
      rw [step, first]
      simp [rest]
  · intro s r n hn hA
    obtain ⟨m, rfl⟩ : ∃ m, n = m + 1 := ⟨n - 1, by omega⟩
    by_cases hr : r = s.fCachedScissor
    · rw [if_pos hr]
      subst hr
      exact setScissorRun_cached _ (m + 1) s hA rfl
    · rw [if_neg hr]
      have first : s.setScissor 0 1 r =
          some ({ s with fCachedScissor := r }, [Cmd.cmdSetScissor 0 r]) := by
        unfold GrVkCommandBuffer.setScissor
        rw [if_pos ⟨hA, rfl⟩, if_pos hr]
      have step : setScissorRun r s (m + 1) =
          match s.setScissor 0 1 r with
          | none => none
          | some (s1, tr1) =>
            match setScissorRun r s1 m with
            | none => none
            | some (s2, tr2) => some (s2, tr1 ++ tr2) := rfl
      have rest := setScissorRun_cached r m { s with fCachedScissor := r } hA rfl
      rw [step, first]
      simp [rest]
  · intro s c n hn hA
    obtain ⟨m, rfl⟩ : ∃ m, n = m + 1 := ⟨n - 1, by omega⟩
    by_cases hc : c = s.fCachedBlendConstant
    · rw [if_pos hc]
      subst hc
      exact setBlendConstantsRun_cached _ (m + 1) s hA rfl
    · rw [if_neg hc]
      have first : s.setBlendConstants c =
          some ({ s with fCachedBlendConstant := c },
            [Cmd.cmdSetBlendConstants c]) := by
        unfold GrVkCommandBuffer.setBlendConstants
        rw [if_pos hA, if_pos hc]
      have step : setBlendConstantsRun c s (m + 1) =
          match s.setBlendConstants c with
          | none => none
          | some (s1, tr1) =>
            match setBlendConstantsRun c s1 m with
            | none => none
            | some (s2, tr2) => some (s2, tr1 ++ tr2) := rfl
      have rest := setBlendConstantsRun_cached c m
        { s with fCachedBlendConstant := c } hA rfl
      rw [step, first]
      simp [rest]

/-- Witness for the amended C5: three repeated calls of each setter with a
non-sentinel value on the fresh Active buffer. -/
theorem claim_C5_witness :
    setViewportRun sampleViewportValue sampleActive 3 =
      some ({ sampleActive with fCachedViewport := sampleViewportValue },
        if sampleViewportValue = sampleActive.fCachedViewport then []
        else [Cmd.cmdSetViewport 0 sampleViewportValue]) ∧
    setScissorRun sampleScissorValue sampleActive 3 =
      some ({ sampleActive with fCachedScissor := sampleScissorValue },
        if sampleScissorValue = sampleActive.fCachedScissor then []
        else [Cmd.cmdSetScissor 0 sampleScissorValue]) ∧
    setBlendConstantsRun sampleBlendValue sampleActive 3 =
      some ({ sampleActive with fCachedBlendConstant := sampleBlendValue },
        if sampleBlendValue = sampleActive.fCachedBlendConstant then []
        else [Cmd.cmdSetBlendConstants sampleBlendValue]) :=
  ⟨claim_C5_set_state_dedup.1 sampleActive sampleViewportValue 3 (by decide) rfl,
   claim_C5_set_state_dedup.2.1 sampleActive sampleScissorValue 3 (by decide) rfl,
   claim_C5_set_state_dedup.2.2 sampleActive sampleBlendValue 3 (by decide) rfl⟩

/-- Appending tracked semaphore resources with `foldl` appends their
identities to the tracked list. -/
theorem foldl_addResource_items : ∀ (l : List SemResource) (b : GrVkCommandBuffer),
    (l.foldl (fun acc r => acc.addResource r.id) b).fTrackedResources.items =
      b.fTrackedResources.items ++ l.map SemResource.id := by
  intro l
  induction l with
  | nil => intro b; simp
  | cons a t ih =>
    intro b
    rw [List.foldl_cons, ih]
    simp [GrVkCommandBuffer.addResource, TrackedList.push]

/-- The mark-signaled loop contributes exactly the input identities to the
signal-mark events. -/
theorem markSignalEvents_marks (l : List SemResource) :
    markSignalEvents (l.map fun r => Cmd.markSignaled r.id) =
      l.map SemResource.id := by
  induction l with
  | nil => rfl
  | cons a t ih => simp [markSignalEvents, List.filterMap_cons] at ih ⊢; exact ih

/-- The mark-waited loop contributes nothing to the signal-mark events. -/
theorem markSignalEvents_waitMarks (l : List SemResource) :
    markSignalEvents (l.map fun r => Cmd.markWaited r.id) = [] := by
  induction l with
  | nil => rfl
  | cons a t ih => simp [markSignalEvents, List.filterMap_cons, ih]

/-- The mark-waited loop contributes exactly the input identities to the
wait-mark events. -/
theorem markWaitEvents_marks (l : List SemResource) :
    markWaitEvents (l.map fun r => Cmd.markWaited r.id) = l.map SemResource.id := by
  induction l with
  | nil => rfl
  | cons a t ih => simp [markWaitEvents, List.filterMap_cons] at ih ⊢; exact ih

/-- The mark-signaled loop contributes nothing to the wait-mark events. -/
theorem markWaitEvents_signalMarks (l : List SemResource) :
    markWaitEvents (l.map fun r => Cmd.markSignaled r.id) = [] := by
  induction l with
  | nil => rfl
  | cons a t ih => simp [markWaitEvents, List.filterMap_cons, ih]

/-- Mark events contribute no queue submissions. -/
theorem queueSubmitEvents_signalMarks (l : List SemResource) :
    queueSubmitEvents (l.map fun r => Cmd.markSignaled r.id) = [] := by
  induction l with
  | nil => rfl
  | cons a t ih => simp [queueSubmitEvents, List.filterMap_cons, ih]

/-- Wait-mark events contribute no queue submissions. -/
theorem queueSubmitEvents_waitMarks (l : List SemResource) :
    queueSubmitEvents (l.map fun r => Cmd.markWaited r.id) = [] := by
  induction l with
  | nil => rfl
  | cons a t ih => simp [queueSubmitEvents, List.filterMap_cons, ih]

/-- Mark events contribute no fence creations. -/
theorem createFenceEvents_signalMarks (l : List SemResource) :
    createFenceEvents (l.map fun r => Cmd.markSignaled r.id) = [] := by
  induction l with
  | nil => rfl
  | cons a t ih => simp [createFenceEvents, List.filterMap_cons, ih]

/-- Wait-mark events contribute no fence creations. -/
theorem createFenceEvents_waitMarks (l : List SemResource) :
    createFenceEvents (l.map fun r => Cmd.markWaited r.id) = [] := by
  induction l with
  | nil => rfl
  | cons a t ih => simp [createFenceEvents, List.filterMap_cons, ih]

/-- Mark events contribute no fence resets. -/
theorem resetFencesEvents_signalMarks (l : List SemResource) :
    resetFencesEvents (l.map fun r => Cmd.markSignaled r.id) = [] := by
  induction l with
  | nil => rfl
  | cons a t ih => simp [resetFencesEvents, List.filterMap_cons, ih]

/-- Wait-mark events contribute no fence resets. -/
theorem resetFencesEvents_waitMarks (l : List SemResource) :
    resetFencesEvents (l.map fun r => Cmd.markWaited r.id) = [] := by
  induction l with
  | nil => rfl
  | cons a t ih => simp [resetFencesEvents, List.filterMap_cons, ih]

/-- Mark events contribute no fence destructions. -/
theorem destroyFenceEvents_signalMarks (l : List SemResource) :
    destroyFenceEvents (l.map fun r => Cmd.markSignaled r.id) = [] := by
  induction l with
  | nil => rfl
  | cons a t ih => simp [destroyFenceEvents, List.filterMap_cons, ih]

/-- Wait-mark events contribute no fence destructions. -/
theorem destroyFenceEvents_waitMarks (l : List SemResource) :
    destroyFenceEvents (l.map fun r => Cmd.markWaited r.id) = [] := by
  induction l with
  | nil => rfl
  | cons a t ih => simp [destroyFenceEvents, List.filterMap_cons, ih]

/-- C1 counterexample: submitting with one signal semaphore whose
`shouldSignal` predicate is false filters it out of the native submission,
yet the mark loop still applies `markAsSignaled` to it — the set of
semaphores receiving the mark mutation is all inputs, not exactly the
filtered ones. -/
theorem claim_C1_counterexample :
    (samplePrimaryIdle.submitToQueue SyncQueue.kSkip_SyncQueue
        [semConsumedSignal] [] 5 true).map
      (fun r => (markSignalEvents r.2.2.2,
                 ([semConsumedSignal].filter SemResource.shouldSignal).map
                   SemResource.id)) =
      some ([502], []) ∧
    ([502] : List GrVkResource) ≠ [] := by
  exact ⟨by decide, by decide⟩

/-- Extracting with a constantly-`some` projection is a map. -/
theorem filterMap_some_id (l : List SemResource) :
    List.filterMap (fun x => some x.id) l = l.map SemResource.id := by
  induction l with
  | nil => rfl
  | cons a t ih => simp [List.filterMap_cons, ih]

/-- Extracting with a constantly-`none` projection yields nothing. -/
theorem filterMap_none_sem (l : List SemResource) :
    List.filterMap (fun _ => (none : Option GrVkResource)) l = [] := by
  induction l with
  | nil => rfl
  | cons a t ih => simp [List.filterMap_cons, ih]

/-- C1 amended: for a `submitToQueue` call with `N + M > 0` semaphore
inputs, exactly the semaphores whose `shouldSignal`/`shouldWait` predicate
is true at filter time are included in the native submission and tracked as
resources; after the submit call returns, the mark mutation is applied to
every input semaphore — not only the filtered ones — leaving every input
marked (an unfiltered input was already marked, so its state does not
change). -/
theorem claim_C1_semaphore_submission :
    ∀ (p : GrVkPrimaryCommandBuffer) (sig wai : List SemResource) (fid : Nat),
      p.fIsActive = false → 0 < sig.length + wai.length →
      ∃ p1 tr,
        p.submitToQueue SyncQueue.kSkip_SyncQueue sig wai fid true =
          some (p1, sig.map SemResource.markAsSignaled,
                wai.map SemResource.markAsWaited, tr) ∧
        queueSubmitEvents tr =
          [((wai.filter SemResource.shouldWait).map SemResource.semaphore,
            (sig.filter SemResource.shouldSignal).map SemResource.semaphore)] ∧
        markSignalEvents tr = sig.map SemResource.id ∧
        markWaitEvents tr = wai.map SemResource.id ∧
        p1.fTrackedResources.items =
          p.fTrackedResources.items ++
            ((sig.filter SemResource.shouldSignal).map SemResource.id ++
             (wai.filter SemResource.shouldWait).map SemResource.id) := by
  intro p sig wai fid hA hlen
  have hcond : ¬(sig.length = 0 ∧ wai.length = 0) := by omega
  unfold GrVkPrimaryCommandBuffer.submitToQueue
  rw [if_neg (by simp [hA])]
  cases hf : p.fSubmitFence with
  | none =>
    simp only [if_neg hcond]
    refine ⟨_, _, rfl, ?_, ?_, ?_, ?_⟩
    · simp [queueSubmitEvents, List.filterMap_append, List.filterMap_cons,
        queueSubmitEvents_signalMarks, queueSubmitEvents_waitMarks]
    · simp [markSignalEvents, List.filterMap_append, List.filterMap_cons,
        Function.comp_def, filterMap_some_id, filterMap_none_sem]
    · simp [markWaitEvents, List.filterMap_append, List.filterMap_cons,
        Function.comp_def, filterMap_some_id, filterMap_none_sem]
    · simp [GrVkPrimaryCommandBuffer.withBase, foldl_addResource_items]
  | some f =>
    simp only [if_neg hcond]
    refine ⟨_, _, rfl, ?_, ?_, ?_, ?_⟩
    · simp [queueSubmitEvents, List.filterMap_append, List.filterMap_cons,
        queueSubmitEvents_signalMarks, queueSubmitEvents_waitMarks]
    · simp [markSignalEvents, List.filterMap_append, List.filterMap_cons,
        Function.comp_def, filterMap_some_id, filterMap_none_sem]
    · simp [markWaitEvents, List.filterMap_append, List.filterMap_cons,
        Function.comp_def, filterMap_some_id, filterMap_none_sem]
    · simp [GrVkPrimaryCommandBuffer.withBase, foldl_addResource_items]

/-- Witness for the amended C1: two signal inputs (one pending, one already
consumed) and one wait input on the sample idle primary. -/
theorem claim_C1_witness :
    ∃ p1 tr,
      samplePrimaryIdle.submitToQueue SyncQueue.kSkip_SyncQueue
          [semPendingSignal, semConsumedSignal] [semPendingWait] 5 true =
        some (p1,
          [semPendingSignal, semConsumedSignal].map SemResource.markAsSignaled,
          [semPendingWait].map SemResource.markAsWaited, tr) ∧
      queueSubmitEvents tr =
        [(([semPendingWait].filter SemResource.shouldWait).map SemResource.semaphore,
          ([semPendingSignal, semConsumedSignal].filter SemResource.shouldSignal).map
            SemResource.semaphore)] ∧
      markSignalEvents tr =
        [semPendingSignal, semConsumedSignal].map SemResource.id ∧
      markWaitEvents tr = [semPendingWait].map SemResource.id ∧
      p1.fTrackedResources.items =
        samplePrimaryIdle.fTrackedResources.items ++
          (([semPendingSignal, semConsumedSignal].filter
              SemResource.shouldSignal).map SemResource.id ++
           ([semPendingWait].filter SemResource.shouldWait).map SemResource.id) :=
  claim_C1_semaphore_submission samplePrimaryIdle
    [semPendingSignal, semConsumedSignal] [semPendingWait] 5 rfl (by decide)

/-- C3 counterexample: after a first submission with the forced-sync policy
(which destroys the fence), the second submission creates a fresh fence
instead of resetting and reusing the first one. -/
theorem claim_C3_counterexample :
    (samplePrimaryIdle.submitToQueue SyncQueue.kForce_SyncQueue [] [] 7 true).map
        (fun r => r.1.fSubmitFence) = some none ∧
    ((samplePrimaryIdle.submitToQueue SyncQueue.kForce_SyncQueue [] [] 7 true).bind
        (fun r => r.1.submitToQueue SyncQueue.kSkip_SyncQueue [] [] 9 true)).map
        (fun r => (createFenceEvents r.2.2.2, resetFencesEvents r.2.2.2)) =
      some ([9], []) ∧
    ([9] : List Nat) ≠ [] := by
  exact ⟨by decide, by decide, by decide⟩

/-- C3 amended: the submission fence is created lazily at any
`submitToQueue` call at which no fence exists — the first call, and any call
following a forced-sync submission, which waits on, destroys and clears the
fence; a call at which a fence exists resets and reuses that same fence and
never creates a new one. -/
theorem claim_C3_fence_lifecycle :
    (∀ (p : GrVkPrimaryCommandBuffer) (sig wai : List SemResource) (fid : Nat),
      p.fIsActive = false → p.fSubmitFence = none →
      ∃ p1 so wo tr,
        p.submitToQueue SyncQueue.kSkip_SyncQueue sig wai fid true =
          some (p1, so, wo, tr) ∧
        createFenceEvents tr = [fid] ∧ resetFencesEvents tr = [] ∧
        destroyFenceEvents tr = [] ∧ p1.fSubmitFence = some fid) ∧
    (∀ (p : GrVkPrimaryCommandBuffer) (f : Nat) (sig wai : List SemResource)
        (fid : Nat),
      p.fIsActive = false → p.fSubmitFence = some f →
      ∃ p1 so wo tr,
        p.submitToQueue SyncQueue.kSkip_SyncQueue sig wai fid true =
          some (p1, so, wo, tr) ∧
        createFenceEvents tr = [] ∧ resetFencesEvents tr = [f] ∧
        destroyFenceEvents tr = [] ∧ p1.fSubmitFence = some f) ∧
    (∀ (p : GrVkPrimaryCommandBuffer) (sig wai : List SemResource) (fid : Nat),
      p.fIsActive = false → p.fSubmitFence = none →
      ∃ p1 so wo tr,
        p.submitToQueue SyncQueue.kForce_SyncQueue sig wai fid true =
          some (p1, so, wo, tr) ∧
        createFenceEvents tr = [fid] ∧ destroyFenceEvents tr = [fid] ∧
        p1.fSubmitFence = none) ∧
    (∀ (p : GrVkPrimaryCommandBuffer) (f : Nat) (sig wai : List SemResource)
        (fid : Nat),
      p.fIsActive = false → p.fSubmitFence = some f →
      ∃ p1 so wo tr,
        p.submitToQueue SyncQueue.kForce_SyncQueue sig wai fid true =
          some (p1, so, wo, tr) ∧
        resetFencesEvents tr = [f] ∧ createFenceEvents tr = [] ∧
        destroyFenceEvents tr = [f] ∧ p1.fSubmitFence = none) := by
  refine ⟨?_, ?_, ?_, ?_⟩
  · intro p sig wai fid hA hf
    unfold GrVkPrimaryCommandBuffer.submitToQueue
    rw [if_neg (by simp [hA]), hf]
    by_cases hc : sig.length = 0 ∧ wai.length = 0
    · simp only [if_pos hc]
      refine ⟨_, _, _, _, rfl, ?_, ?_, ?_, ?_⟩ <;>
        simp [createFenceEvents, resetFencesEvents, destroyFenceEvents,
          List.filterMap_cons, GrVkPrimaryCommandBuffer.withBase, hf]
    · simp only [if_neg hc]
      refine ⟨_, _, _, _, rfl, ?_, ?_, ?_, ?_⟩ <;>
        simp [createFenceEvents, resetFencesEvents, destroyFenceEvents,
          List.filterMap_append, List.filterMap_cons, Function.comp_def,
          filterMap_none_sem, GrVkPrimaryCommandBuffer.withBase, hf]
  · intro p f sig wai fid hA hf
    unfold GrVkPrimaryCommandBuffer.submitToQueue
    rw [if_neg (by simp [hA]), hf]
    by_cases hc : sig.length = 0 ∧ wai.length = 0
    · simp only [if_pos hc]
      refine ⟨_, _, _, _, rfl, ?_, ?_, ?_, ?_⟩ <;>
        simp [createFenceEvents, resetFencesEvents, destroyFenceEvents,
          List.filterMap_cons, GrVkPrimaryCommandBuffer.withBase, hf]
    · simp only [if_neg hc]
      refine ⟨_, _, _, _, rfl, ?_, ?_, ?_, ?_⟩ <;>
        simp [createFenceEvents, resetFencesEvents, destroyFenceEvents,
          List.filterMap_append, List.filterMap_cons, Function.comp_def,
          filterMap_none_sem, GrVkPrimaryCommandBuffer.withBase, hf]
  · intro p sig wai fid hA hf
    unfold GrVkPrimaryCommandBuffer.submitToQueue
    rw [if_neg (by simp [hA]), hf]
    by_cases hc : sig.length = 0 ∧ wai.length = 0
    · simp only [if_pos hc]
      refine ⟨_, _, _, _, rfl, ?_, ?_, ?_⟩ <;>
        simp [createFenceEvents, resetFencesEvents, destroyFenceEvents,
          List.filterMap_cons, List.filterMap_append,
          GrVkPrimaryCommandBuffer.withBase, hf]
    · simp only [if_neg hc]
      refine ⟨_, _, _, _, rfl, ?_, ?_, ?_⟩ <;>
        simp [createFenceEvents, resetFencesEvents, destroyFenceEvents,
          List.filterMap_append, List.filterMap_cons, Function.comp_def,
          filterMap_none_sem, GrVkPrimaryCommandBuffer.withBase, hf]
  · intro p f sig wai fid hA hf
    unfold GrVkPrimaryCommandBuffer.submitToQueue
    rw [if_neg (by simp [hA]), hf]
    by_cases hc : sig.length = 0 ∧ wai.length = 0
    · simp only [if_pos hc]
      refine ⟨_, _, _, _, rfl, ?_, ?_, ?_, ?_⟩ <;>
        simp [createFenceEvents, resetFencesEvents, destroyFenceEvents,
          List.filterMap_cons, List.filterMap_append,
          GrVkPrimaryCommandBuffer.withBase, hf]
    · simp only [if_neg hc]
      refine ⟨_, _, _, _, rfl, ?_, ?_, ?_, ?_⟩ <;>
        simp [createFenceEvents, resetFencesEvents, destroyFenceEvents,
          List.filterMap_append, List.filterMap_cons, Function.comp_def,
          filterMap_none_sem, GrVkPrimaryCommandBuffer.withBase, hf]

/-- Witness for the amended C3: creation at a fenceless submit, reset and
reuse at a fenced submit, destruction under the forced-sync policy. -/
theorem claim_C3_witness :
    (∃ p1 so wo tr,
      samplePrimaryIdle.submitToQueue SyncQueue.kSkip_SyncQueue [] [] 5 true =
        some (p1, so, wo, tr) ∧
      createFenceEvents tr = [5] ∧ resetFencesEvents tr = [] ∧
      destroyFenceEvents tr = [] ∧ p1.fSubmitFence = some 5) ∧
    (∃ p1 so wo tr,
      samplePrimaryFenced.submitToQueue SyncQueue.kSkip_SyncQueue
          [semPendingSignal] [] 5 true =
        some (p1, so, wo, tr) ∧
      createFenceEvents tr = [] ∧ resetFencesEvents tr = [7] ∧
      destroyFenceEvents tr = [] ∧ p1.fSubmitFence = some 7) ∧
    (∃ p1 so wo tr,
      samplePrimaryFenced.submitToQueue SyncQueue.kForce_SyncQueue [] [] 5 true =
        some (p1, so, wo, tr) ∧
      resetFencesEvents tr = [7] ∧ createFenceEvents tr = [] ∧
      destroyFenceEvents tr = [7] ∧ p1.fSubmitFence = none) :=
  ⟨claim_C3_fence_lifecycle.1 samplePrimaryIdle [] [] 5 rfl rfl,
   claim_C3_fence_lifecycle.2.1 samplePrimaryFenced 7 [semPendingSignal] [] 5
     rfl rfl,
   claim_C3_fence_lifecycle.2.2.2 samplePrimaryFenced 7 [] [] 5 rfl rfl⟩

/-- Invalidation writes exactly the unset-sentinel configuration. -/
theorem dynState_invalidateState (s : GrVkCommandBuffer) :
    dynState s.invalidateState = unsetDynState s.fBoundInputBuffers.length := by
  simp [dynState, unsetDynState, GrVkCommandBuffer.invalidateState]

/-- Tracking a resource does not touch the cached dynamic state. -/
theorem dynState_foldl_addResource (l : List GrVkResource) :
    ∀ b, dynState (l.foldl GrVkCommandBuffer.addResource b) = dynState b := by
  induction l with
  | nil => intro b; rfl
  | cons a t ih => intro b; rw [List.foldl_cons, ih]; rfl

/-- Tracking a recycled resource does not touch the cached dynamic state. -/
theorem dynState_foldl_addRecycled (l : List GrVkResource) :
    ∀ b, dynState (l.foldl GrVkCommandBuffer.addRecycledResource b) = dynState b := by
  induction l with
  | nil => intro b; rfl
  | cons a t ih => intro b; rw [List.foldl_cons, ih]; rfl

/-- Tracking filtered semaphores does not touch the cached dynamic state. -/
theorem dynState_foldl_addSem (l : List SemResource) :
    ∀ b, dynState (l.foldl (fun acc r => acc.addResource r.id) b) = dynState b := by
  induction l with
  | nil => intro b; rfl
  | cons a t ih => intro b; rw [List.foldl_cons, ih]; rfl

/-- Ending a primary buffer sets the cached dynamic state to the unset
sentinels. -/
theorem end_primary_dyn (p : GrVkPrimaryCommandBuffer)
    (h1 : p.fIsActive = true) (h2 : p.fActiveRenderPass = none) :
    ∃ p1, p.end' = some (p1, [Cmd.endCommandBuffer]) ∧
      dynState p1.toGrVkCommandBuffer =
        unsetDynState p.fBoundInputBuffers.length := by
  unfold GrVkPrimaryCommandBuffer.end'
  rw [if_pos ⟨h1, h2⟩]
  exact ⟨_, rfl, by
    simp [GrVkPrimaryCommandBuffer.withBase, dynState, unsetDynState,
      GrVkCommandBuffer.invalidateState]⟩

/-- Ending a secondary buffer sets the cached dynamic state to the unset
sentinels. -/
theorem end_secondary_dyn (b : GrVkSecondaryCommandBuffer)
    (h1 : b.fIsActive = true) :
    ∃ b1, b.end' = some (b1, [Cmd.endCommandBuffer]) ∧
      dynState b1.toGrVkCommandBuffer =
        unsetDynState b.fBoundInputBuffers.length := by
  unfold GrVkSecondaryCommandBuffer.end'
  rw [if_pos h1]
  exact ⟨_, rfl, by
    simp [dynState, unsetDynState, GrVkCommandBuffer.invalidateState]⟩

/-- Resetting a buffer sets the cached dynamic state to the unset
sentinels. -/
theorem reset_dyn (s : GrVkCommandBuffer) (K : Nat)
    (hA : s.fIsActive = false) :
    ∃ s1 k tr, s.reset K = some (s1, k, tr) ∧
      dynState s1 = unsetDynState s.fBoundInputBuffers.length := by
  unfold GrVkCommandBuffer.reset
  rw [if_neg (by simp [hA])]
  by_cases hn : s.fNumResets + 1 > K
  · rw [if_pos hn]
    exact ⟨_, _, _, rfl, by
      simp [dynState, unsetDynState, GrVkCommandBuffer.invalidateState]⟩
  · rw [if_neg hn]
    exact ⟨_, _, _, rfl, by
      simp [dynState, unsetDynState, GrVkCommandBuffer.invalidateState]⟩

/-- Executing a secondary buffer always sets the primary's cached dynamic
state to the unset sentinels, whatever the secondary recorded. -/
theorem executeCommands_dyn (p : GrVkPrimaryCommandBuffer)
    (sec : GrVkSecondaryCommandBuffer) (prp srp : GrVkRenderPass)
    (h1 : p.fIsActive = true) (h2 : sec.fIsActive = false)
    (h3 : p.fActiveRenderPass = some prp) (h4 : sec.fActiveRenderPass = some srp)
    (h5 : prp.compatClass = srp.compatClass) :
    ∃ p1, p.executeCommands sec =
        some (p1, [Cmd.cmdExecuteCommands sec.fCmdBuffer]) ∧
      dynState p1.toGrVkCommandBuffer =
        unsetDynState p.fBoundInputBuffers.length := by
  unfold GrVkPrimaryCommandBuffer.executeCommands
  rw [if_pos ⟨h1, h2⟩, h3, h4]
  simp only [if_pos h5]
  exact ⟨_, rfl, by
    simp [GrVkPrimaryCommandBuffer.withBase, dynState, unsetDynState,
      GrVkCommandBuffer.invalidateState]⟩

/-- Beginning a primary buffer leaves the cached dynamic state untouched. -/
theorem begin_primary_dyn (p : GrVkPrimaryCommandBuffer)
    (h : p.fIsActive = false) :
    ∃ p1, p.begin = some (p1, [Cmd.beginCommandBuffer]) ∧
      dynState p1.toGrVkCommandBuffer = dynState p.toGrVkCommandBuffer := by
  unfold GrVkPrimaryCommandBuffer.begin
  rw [if_neg (by simp [h])]
  exact ⟨_, rfl, rfl⟩

/-- Beginning a secondary buffer leaves the cached dynamic state
untouched. -/
theorem begin_secondary_dyn (b : GrVkSecondaryCommandBuffer)
    (rp : GrVkRenderPass) (h : b.fIsActive = false) :
    ∃ b1, b.begin rp = some (b1, [Cmd.beginCommandBuffer]) ∧
      dynState b1.toGrVkCommandBuffer = dynState b.toGrVkCommandBuffer := by
  unfold GrVkSecondaryCommandBuffer.begin
  rw [if_neg (by simp [h])]
  exact ⟨_, rfl, rfl⟩

/-- Opening a render pass leaves the cached dynamic state untouched. -/
theorem beginRenderPass_dyn (p : GrVkPrimaryCommandBuffer)
    (rp : GrVkRenderPass) (t : GrVkRenderTarget) (forSec : Bool)
    (h1 : p.fIsActive = true) (h2 : p.fActiveRenderPass = none)
    (h3 : rp.compatClass = t.compatClass) :
    ∃ p1 tr, p.beginRenderPass rp t forSec = some (p1, tr) ∧
      dynState p1.toGrVkCommandBuffer = dynState p.toGrVkCommandBuffer := by
  unfold GrVkPrimaryCommandBuffer.beginRenderPass
  rw [if_pos ⟨h1, h2, h3⟩]
  refine ⟨_, _, rfl, ?_⟩
  simp only [GrVkPrimaryCommandBuffer.withBase]
  rw [dynState_foldl_addResource]
  rfl

/-- Closing a render pass leaves the cached dynamic state untouched. -/
theorem endRenderPass_dyn (p : GrVkPrimaryCommandBuffer)
    (rp : GrVkRenderPass) (h1 : p.fIsActive = true)
    (h2 : p.fActiveRenderPass = some rp) :
    ∃ p1, p.endRenderPass = some (p1, [Cmd.cmdEndRenderPass]) ∧
      dynState p1.toGrVkCommandBuffer = dynState p.toGrVkCommandBuffer := by
  unfold GrVkPrimaryCommandBuffer.endRenderPass
  rw [if_pos ⟨h1, by simp [h2]⟩]
  exact ⟨_, rfl, rfl⟩

/-- Submission leaves the cached dynamic state untouched. -/
theorem submitToQueue_dyn (p : GrVkPrimaryCommandBuffer)
    (sig wai : List SemResource) (fid : Nat) (h : p.fIsActive = false) :
    ∃ p1 so wo tr,
      p.submitToQueue SyncQueue.kSkip_SyncQueue sig wai fid true =
        some (p1, so, wo, tr) ∧
      dynState p1.toGrVkCommandBuffer = dynState p.toGrVkCommandBuffer := by
  unfold GrVkPrimaryCommandBuffer.submitToQueue
  rw [if_neg (by simp [h])]
  cases hf : p.fSubmitFence with
  | none =>
    by_cases hc : sig.length = 0 ∧ wai.length = 0
    · simp only [if_pos hc]
      exact ⟨_, _, _, _, rfl, rfl⟩
    · simp only [if_neg hc]
      exact ⟨_, _, _, _, rfl, by
        simp [GrVkPrimaryCommandBuffer.withBase, dynState_foldl_addSem]⟩
  | some f =>
    by_cases hc : sig.length = 0 ∧ wai.length = 0
    · simp only [if_pos hc]
      exact ⟨_, _, _, _, rfl, rfl⟩
    · simp only [if_neg hc]
      exact ⟨_, _, _, _, rfl, by
        simp [GrVkPrimaryCommandBuffer.withBase, dynState_foldl_addSem]⟩

/-- `setViewport` can change only the cached viewport, never the other
cached dynamic state. -/
theorem setViewport_dyn_others (s : GrVkCommandBuffer) (v : VkViewport)
    (h : s.fIsActive = true) :
    ∃ s1 tr, s.setViewport 0 1 v = some (s1, tr) ∧
      s1.fBoundInputBuffers = s.fBoundInputBuffers ∧
      s1.fBoundIndexBuffer = s.fBoundIndexBuffer ∧
      s1.fCachedScissor = s.fCachedScissor ∧
      s1.fCachedBlendConstant = s.fCachedBlendConstant := by
  unfold GrVkCommandBuffer.setViewport
  rw [if_pos ⟨h, rfl⟩]
  by_cases hv : v ≠ s.fCachedViewport
  · rw [if_pos hv]; exact ⟨_, _, rfl, rfl, rfl, rfl, rfl⟩
  · rw [if_neg hv]; exact ⟨_, _, rfl, rfl, rfl, rfl, rfl⟩

/-- `setScissor` can change only the cached scissor. -/
theorem setScissor_dyn_others (s : GrVkCommandBuffer) (r : VkRect2D)
    (h : s.fIsActive = true) :
    ∃ s1 tr, s.setScissor 0 1 r = some (s1, tr) ∧
      s1.fBoundInputBuffers = s.fBoundInputBuffers ∧
      s1.fBoundIndexBuffer = s.fBoundIndexBuffer ∧
      s1.fCachedViewport = s.fCachedViewport ∧
      s1.fCachedBlendConstant = s.fCachedBlendConstant := by
  unfold GrVkCommandBuffer.setScissor
  rw [if_pos ⟨h, rfl⟩]
  by_cases hr : r ≠ s.fCachedScissor
  · rw [if_pos hr]; exact ⟨_, _, rfl, rfl, rfl, rfl, rfl⟩
  · rw [if_neg hr]; exact ⟨_, _, rfl, rfl, rfl, rfl, rfl⟩

/-- `setBlendConstants` can change only the cached blend constants. -/
theorem setBlendConstants_dyn_others (s : GrVkCommandBuffer)
    (c : BlendConstants) (h : s.fIsActive = true) :
    ∃ s1 tr, s.setBlendConstants c = some (s1, tr) ∧
      s1.fBoundInputBuffers = s.fBoundInputBuffers ∧
      s1.fBoundIndexBuffer = s.fBoundIndexBuffer ∧
      s1.fCachedViewport = s.fCachedViewport ∧
      s1.fCachedScissor = s.fCachedScissor := by
  unfold GrVkCommandBuffer.setBlendConstants
  rw [if_pos h]
  by_cases hc : c ≠ s.fCachedBlendConstant
  · rw [if_pos hc]; exact ⟨_, _, rfl, rfl, rfl, rfl, rfl⟩
  · rw [if_neg hc]; exact ⟨_, _, rfl, rfl, rfl, rfl, rfl⟩

/-- `bindInputBuffer` can change only its bound-slot array. -/
theorem bindInputBuffer_dyn_others (s : GrVkCommandBuffer) (binding : Nat)
    (vb : GrVkVertexBuffer) (h1 : vb.buffer ≠ VK_NULL_HANDLE)
    (h2 : binding < kMaxInputBuffers) :
    ∃ s1 tr, s.bindInputBuffer binding vb = some (s1, tr) ∧
      s1.fBoundIndexBuffer = s.fBoundIndexBuffer ∧
      s1.fCachedViewport = s.fCachedViewport ∧
      s1.fCachedScissor = s.fCachedScissor ∧
      s1.fCachedBlendConstant = s.fCachedBlendConstant := by
  unfold GrVkCommandBuffer.bindInputBuffer
  rw [if_neg h1, if_neg (by omega)]
  by_cases hb : vb.buffer ≠ s.fBoundInputBuffers.getD binding VK_NULL_HANDLE
  · rw [if_pos hb]; exact ⟨_, _, rfl, rfl, rfl, rfl, rfl⟩
  · rw [if_neg hb]; exact ⟨_, _, rfl, rfl, rfl, rfl, rfl⟩

/-- `bindIndexBuffer` can change only the bound index slot. -/
theorem bindIndexBuffer_dyn_others (s : GrVkCommandBuffer)
    (ib : GrVkIndexBuffer) (h1 : ib.buffer ≠ VK_NULL_HANDLE) :
    ∃ s1 tr, s.bindIndexBuffer ib = some (s1, tr) ∧
      s1.fBoundInputBuffers = s.fBoundInputBuffers ∧
      s1.fCachedViewport = s.fCachedViewport ∧
      s1.fCachedScissor = s.fCachedScissor ∧
      s1.fCachedBlendConstant = s.fCachedBlendConstant := by
  unfold GrVkCommandBuffer.bindIndexBuffer
  rw [if_neg h1]
  by_cases hb : ib.buffer ≠ s.fBoundIndexBuffer
  · rw [if_pos hb]; exact ⟨_, _, rfl, rfl, rfl, rfl, rfl⟩
  · rw [if_neg hb]; exact ⟨_, _, rfl, rfl, rfl, rfl, rfl⟩

/-- `bindPipeline` leaves the cached dynamic state untouched. -/
theorem bindPipeline_dyn (s : GrVkCommandBuffer) (pl : GrVkPipeline)
    (h : s.fIsActive = true) :
    ∃ s1 tr, s.bindPipeline pl = some (s1, tr) ∧ dynState s1 = dynState s := by
  unfold GrVkCommandBuffer.bindPipeline
  rw [if_pos h]
  exact ⟨_, _, rfl, rfl⟩

/-- The pipeline-state `bindDescriptorSets` variant leaves the cached
dynamic state untouched. -/
theorem bindDescriptorSets_dyn (s : GrVkCommandBuffer)
    (ps : GrVkPipelineState) (layout firstSet setCount : Nat)
    (h : s.fIsActive = true) :
    ∃ s1 tr, s.bindDescriptorSets ps layout firstSet setCount = some (s1, tr) ∧
      dynState s1 = dynState s := by
  unfold GrVkCommandBuffer.bindDescriptorSets
  rw [if_pos h]
  exact ⟨_, _, rfl, dynState_foldl_addResource ps.uniformResources s⟩

/-- The explicit-lists `bindDescriptorSets` variant leaves the cached
dynamic state untouched. -/
theorem bindDescriptorSetsExplicit_dyn (s : GrVkCommandBuffer)
    (recycled resources : List GrVkResource) (layout firstSet setCount : Nat)
    (h : s.fIsActive = true) :
    ∃ s1 tr, s.bindDescriptorSetsExplicit recycled resources layout firstSet
        setCount = some (s1, tr) ∧
      dynState s1 = dynState s := by
  unfold GrVkCommandBuffer.bindDescriptorSetsExplicit
  rw [if_pos h]
  refine ⟨_, _, rfl, ?_⟩
  rw [dynState_foldl_addResource, dynState_foldl_addRecycled]

/-- Every outside-render-pass transfer/clear operation leaves the cached
dynamic state untouched. -/
theorem transfer_ops_dyn (p : GrVkPrimaryCommandBuffer)
    (h1 : p.fIsActive = true) (h2 : p.fActiveRenderPass = none) :
    (∀ x y : GrVkImage, ∃ p1 tr, p.copyImage x y = some (p1, tr) ∧
      dynState p1.toGrVkCommandBuffer = dynState p.toGrVkCommandBuffer) ∧
    (∀ (r1 : GrVkResource) (i1 : Nat) (r2 : GrVkResource) (i2 : Nat),
      ∃ p1 tr, p.blitImage r1 i1 r2 i2 = some (p1, tr) ∧
      dynState p1.toGrVkCommandBuffer = dynState p.toGrVkCommandBuffer) ∧
    (∀ (x : GrVkImage) (d : GrVkGpuBuffer),
      ∃ p1 tr, p.copyImageToBuffer x d = some (p1, tr) ∧
      dynState p1.toGrVkCommandBuffer = dynState p.toGrVkCommandBuffer) ∧
    (∀ (sb : GrVkGpuBuffer) (x : GrVkImage),
      ∃ p1 tr, p.copyBufferToImage sb x = some (p1, tr) ∧
      dynState p1.toGrVkCommandBuffer = dynState p.toGrVkCommandBuffer) ∧
    (∀ sb db : GrVkGpuBuffer,
      ∃ p1 tr, p.copyBuffer sb db [] = some (p1, tr) ∧
      dynState p1.toGrVkCommandBuffer = dynState p.toGrVkCommandBuffer) ∧
    (∀ d : GrVkGpuBuffer,
      ∃ p1 tr, p.updateBuffer d 0 0 = some (p1, tr) ∧
      dynState p1.toGrVkCommandBuffer = dynState p.toGrVkCommandBuffer) ∧
    (∀ x : GrVkImage, ∃ p1 tr, p.clearColorImage x = some (p1, tr) ∧
      dynState p1.toGrVkCommandBuffer = dynState p.toGrVkCommandBuffer) ∧
    (∀ x : GrVkImage, ∃ p1 tr, p.clearDepthStencilImage x = some (p1, tr) ∧
      dynState p1.toGrVkCommandBuffer = dynState p.toGrVkCommandBuffer) ∧
    (∀ x y : GrVkImage, ∃ p1 tr, p.resolveImage x y = some (p1, tr) ∧
      dynState p1.toGrVkCommandBuffer = dynState p.toGrVkCommandBuffer) := by
  refine ⟨?_, ?_, ?_, ?_, ?_, ?_, ?_, ?_, ?_⟩
  · intro x y
    unfold GrVkPrimaryCommandBuffer.copyImage
    rw [if_pos ⟨h1, h2⟩]
    exact ⟨_, _, rfl, rfl⟩
  · intro r1 i1 r2 i2
    unfold GrVkPrimaryCommandBuffer.blitImage
    rw [if_pos ⟨h1, h2⟩]
    exact ⟨_, _, rfl, rfl⟩
  · intro x d
    unfold GrVkPrimaryCommandBuffer.copyImageToBuffer
    rw [if_pos ⟨h1, h2⟩]
    exact ⟨_, _, rfl, rfl⟩
  · intro sb x
    unfold GrVkPrimaryCommandBuffer.copyBufferToImage
    rw [if_pos ⟨h1, h2⟩]
    exact ⟨_, _, rfl, rfl⟩
  · intro sb db
    unfold GrVkPrimaryCommandBuffer.copyBuffer
    rw [if_pos ⟨h1, h2, rfl⟩]
    exact ⟨_, _, rfl, rfl⟩
  · intro d
    unfold GrVkPrimaryCommandBuffer.updateBuffer
    rw [if_pos ⟨h1, h2, rfl, by omega, rfl⟩]
    exact ⟨_, _, rfl, rfl⟩
  · intro x
    unfold GrVkPrimaryCommandBuffer.clearColorImage
    rw [if_pos ⟨h1, h2⟩]
    exact ⟨_, _, rfl, rfl⟩
  · intro x
    unfold GrVkPrimaryCommandBuffer.clearDepthStencilImage
    rw [if_pos ⟨h1, h2⟩]
    exact ⟨_, _, rfl, rfl⟩
  · intro x y
    unfold GrVkPrimaryCommandBuffer.resolveImage
    rw [if_pos ⟨h1, h2⟩]
    exact ⟨_, _, rfl, rfl⟩

/-- C6: cached dynamic state (bound input-buffer slots, bound index buffer,
viewport, scissor, blend constants) is set to its unset-sentinel values at
exactly three points — buffer end (primary and secondary), reset, and after
`executeCommands` on a primary, the last independently of what the
secondary recorded.  Every other modelled operation either leaves the
cached dynamic state untouched (begin, render-pass open/close, submission,
pipeline and descriptor-set binds, the transfer/clear operations) or
changes only its own cached component (the set and bind calls), so none of
them performs the wholesale sentinel invalidation. -/
theorem claim_C6_invalidation_points :
    (∀ (p : GrVkPrimaryCommandBuffer), p.fIsActive = true →
      p.fActiveRenderPass = none →
      ∃ p1, p.end' = some (p1, [Cmd.endCommandBuffer]) ∧
        dynState p1.toGrVkCommandBuffer =
          unsetDynState p.fBoundInputBuffers.length) ∧
    (∀ (b : GrVkSecondaryCommandBuffer), b.fIsActive = true →
      ∃ b1, b.end' = some (b1, [Cmd.endCommandBuffer]) ∧
        dynState b1.toGrVkCommandBuffer =
          unsetDynState b.fBoundInputBuffers.length) ∧
    (∀ (s : GrVkCommandBuffer) (K : Nat), s.fIsActive = false →
      ∃ s1 k tr, s.reset K = some (s1, k, tr) ∧
        dynState s1 = unsetDynState s.fBoundInputBuffers.length) ∧
    (∀ (p : GrVkPrimaryCommandBuffer) (sec : GrVkSecondaryCommandBuffer)
        (prp srp : GrVkRenderPass), p.fIsActive = true → sec.fIsActive = false →
      p.fActiveRenderPass = some prp → sec.fActiveRenderPass = some srp →
      prp.compatClass = srp.compatClass →
      ∃ p1, p.executeCommands sec =
          some (p1, [Cmd.cmdExecuteCommands sec.fCmdBuffer]) ∧
        dynState p1.toGrVkCommandBuffer =
          unsetDynState p.fBoundInputBuffers.length) ∧
    (∀ (p : GrVkPrimaryCommandBuffer), p.fIsActive = false →
      ∃ p1, p.begin = some (p1, [Cmd.beginCommandBuffer]) ∧
        dynState p1.toGrVkCommandBuffer = dynState p.toGrVkCommandBuffer) ∧
    (∀ (b : GrVkSecondaryCommandBuffer) (rp : GrVkRenderPass),
      b.fIsActive = false →
      ∃ b1, b.begin rp = some (b1, [Cmd.beginCommandBuffer]) ∧
        dynState b1.toGrVkCommandBuffer = dynState b.toGrVkCommandBuffer) ∧
    (∀ (p : GrVkPrimaryCommandBuffer) (rp : GrVkRenderPass)
        (t : GrVkRenderTarget) (forSec : Bool), p.fIsActive = true →
      p.fActiveRenderPass = none → rp.compatClass = t.compatClass →
      ∃ p1 tr, p.beginRenderPass rp t forSec = some (p1, tr) ∧
        dynState p1.toGrVkCommandBuffer = dynState p.toGrVkCommandBuffer) ∧
    (∀ (p : GrVkPrimaryCommandBuffer) (rp : GrVkRenderPass),
      p.fIsActive = true → p.fActiveRenderPass = some rp →
      ∃ p1, p.endRenderPass = some (p1, [Cmd.cmdEndRenderPass]) ∧
        dynState p1.toGrVkCommandBuffer = dynState p.toGrVkCommandBuffer) ∧
    (∀ (p : GrVkPrimaryCommandBuffer) (sig wai : List SemResource) (fid : Nat),
      p.fIsActive = false →
      ∃ p1 so wo tr,
        p.submitToQueue SyncQueue.kSkip_SyncQueue sig wai fid true =
          some (p1, so, wo, tr) ∧
        dynState p1.toGrVkCommandBuffer = dynState p.toGrVkCommandBuffer) ∧
    (∀ (s : GrVkCommandBuffer) (v : VkViewport), s.fIsActive = true →
      ∃ s1 tr, s.setViewport 0 1 v = some (s1, tr) ∧
        s1.fBoundInputBuffers = s.fBoundInputBuffers ∧
        s1.fBoundIndexBuffer = s.fBoundIndexBuffer ∧
        s1.fCachedScissor = s.fCachedScissor ∧
        s1.fCachedBlendConstant = s.fCachedBlendConstant) ∧
    (∀ (s : GrVkCommandBuffer) (r : VkRect2D), s.fIsActive = true →
      ∃ s1 tr, s.setScissor 0 1 r = some (s1, tr) ∧
        s1.fBoundInputBuffers = s.fBoundInputBuffers ∧
        s1.fBoundIndexBuffer = s.fBoundIndexBuffer ∧
        s1.fCachedViewport = s.fCachedViewport ∧
        s1.fCachedBlendConstant = s.fCachedBlendConstant) ∧
    (∀ (s : GrVkCommandBuffer) (c : BlendConstants), s.fIsActive = true →
      ∃ s1 tr, s.setBlendConstants c = some (s1, tr) ∧
        s1.fBoundInputBuffers = s.fBoundInputBuffers ∧
        s1.fBoundIndexBuffer = s.fBoundIndexBuffer ∧
        s1.fCachedViewport = s.fCachedViewport ∧
        s1.fCachedScissor = s.fCachedScissor) ∧
    (∀ (s : GrVkCommandBuffer) (binding : Nat) (vb : GrVkVertexBuffer),
      vb.buffer ≠ VK_NULL_HANDLE → binding < kMaxInputBuffers →
      ∃ s1 tr, s.bindInputBuffer binding vb = some (s1, tr) ∧
        s1.fBoundIndexBuffer = s.fBoundIndexBuffer ∧
        s1.fCachedViewport = s.fCachedViewport ∧
        s1.fCachedScissor = s.fCachedScissor ∧
        s1.fCachedBlendConstant = s.fCachedBlendConstant) ∧
    (∀ (s : GrVkCommandBuffer) (ib : GrVkIndexBuffer),
      ib.buffer ≠ VK_NULL_HANDLE →
      ∃ s1 tr, s.bindIndexBuffer ib = some (s1, tr) ∧
        s1.fBoundInputBuffers = s.fBoundInputBuffers ∧
        s1.fCachedViewport = s.fCachedViewport ∧
        s1.fCachedScissor = s.fCachedScissor ∧
        s1.fCachedBlendConstant = s.fCachedBlendConstant) ∧
    (∀ (s : GrVkCommandBuffer) (pl : GrVkPipeline), s.fIsActive = true →
      ∃ s1 tr, s.bindPipeline pl = some (s1, tr) ∧ dynState s1 = dynState s) ∧
    (∀ (s : GrVkCommandBuffer) (ps : GrVkPipelineState)
        (layout firstSet setCount : Nat), s.fIsActive = true →
      ∃ s1 tr, s.bindDescriptorSets ps layout firstSet setCount =
          some (s1, tr) ∧ dynState s1 = dynState s) ∧
    (∀ (s : GrVkCommandBuffer) (recycled resources : List GrVkResource)
        (layout firstSet setCount : Nat), s.fIsActive = true →
      ∃ s1 tr, s.bindDescriptorSetsExplicit recycled resources layout firstSet
          setCount = some (s1, tr) ∧ dynState s1 = dynState s) ∧
    (∀ (p : GrVkPrimaryCommandBuffer), p.fIsActive = true →
      p.fActiveRenderPass = none →
      (∀ x y : GrVkImage, ∃ p1 tr, p.copyImage x y = some (p1, tr) ∧
        dynState p1.toGrVkCommandBuffer = dynState p.toGrVkCommandBuffer) ∧
      (∀ (r1 : GrVkResource) (i1 : Nat) (r2 : GrVkResource) (i2 : Nat),
        ∃ p1 tr, p.blitImage r1 i1 r2 i2 = some (p1, tr) ∧
        dynState p1.toGrVkCommandBuffer = dynState p.toGrVkCommandBuffer) ∧
      (∀ (x : GrVkImage) (d : GrVkGpuBuffer),
        ∃ p1 tr, p.copyImageToBuffer x d = some (p1, tr) ∧
        dynState p1.toGrVkCommandBuffer = dynState p.toGrVkCommandBuffer) ∧
      (∀ (sb : GrVkGpuBuffer) (x : GrVkImage),
        ∃ p1 tr, p.copyBufferToImage sb x = some (p1, tr) ∧
        dynState p1.toGrVkCommandBuffer = dynState p.toGrVkCommandBuffer) ∧
      (∀ sb db : GrVkGpuBuffer,
        ∃ p1 tr, p.copyBuffer sb db [] = some (p1, tr) ∧
        dynState p1.toGrVkCommandBuffer = dynState p.toGrVkCommandBuffer) ∧
      (∀ d : GrVkGpuBuffer,
        ∃ p1 tr, p.updateBuffer d 0 0 = some (p1, tr) ∧
        dynState p1.toGrVkCommandBuffer = dynState p.toGrVkCommandBuffer) ∧
      (∀ x : GrVkImage, ∃ p1 tr, p.clearColorImage x = some (p1, tr) ∧
        dynState p1.toGrVkCommandBuffer = dynState p.toGrVkCommandBuffer) ∧
      (∀ x : GrVkImage, ∃ p1 tr, p.clearDepthStencilImage x = some (p1, tr) ∧
        dynState p1.toGrVkCommandBuffer = dynState p.toGrVkCommandBuffer) ∧
      (∀ x y : GrVkImage, ∃ p1 tr, p.resolveImage x y = some (p1, tr) ∧
        dynState p1.toGrVkCommandBuffer = dynState p.toGrVkCommandBuffer)) :=
  ⟨end_primary_dyn, end_secondary_dyn, reset_dyn, executeCommands_dyn,
   begin_primary_dyn, begin_secondary_dyn, beginRenderPass_dyn,
   endRenderPass_dyn, submitToQueue_dyn, setViewport_dyn_others,
   setScissor_dyn_others, setBlendConstants_dyn_others,
   bindInputBuffer_dyn_others, bindIndexBuffer_dyn_others, bindPipeline_dyn,
   bindDescriptorSets_dyn, bindDescriptorSetsExplicit_dyn, transfer_ops_dyn⟩

/-- Witness for C6 at concrete buffers: end, reset and `executeCommands`
each produce the sentinel configuration, while begin and `setViewport`
preserve the pre-existing cache. -/
theorem claim_C6_witness :
    (∃ p1, samplePrimaryActive.end' = some (p1, [Cmd.endCommandBuffer]) ∧
      dynState p1.toGrVkCommandBuffer =
        unsetDynState samplePrimaryActive.fBoundInputBuffers.length) ∧
    (∃ s1 k tr, sampleIdle.reset 3 = some (s1, k, tr) ∧
      dynState s1 = unsetDynState sampleIdle.fBoundInputBuffers.length) ∧
    (∃ p1, samplePrimaryInPass.executeCommands sampleSecondary =
        some (p1, [Cmd.cmdExecuteCommands sampleSecondary.fCmdBuffer]) ∧
      dynState p1.toGrVkCommandBuffer =
        unsetDynState samplePrimaryInPass.fBoundInputBuffers.length) ∧
    (∃ p1, samplePrimaryIdle.begin = some (p1, [Cmd.beginCommandBuffer]) ∧
      dynState p1.toGrVkCommandBuffer =
        dynState samplePrimaryIdle.toGrVkCommandBuffer) ∧
    (∃ s1 tr, sampleActive.setViewport 0 1 sampleViewportValue =
        some (s1, tr) ∧
      s1.fBoundInputBuffers = sampleActive.fBoundInputBuffers ∧
      s1.fBoundIndexBuffer = sampleActive.fBoundIndexBuffer ∧
      s1.fCachedScissor = sampleActive.fCachedScissor ∧
      s1.fCachedBlendConstant = sampleActive.fCachedBlendConstant) :=
  ⟨claim_C6_invalidation_points.1 samplePrimaryActive rfl rfl,
   claim_C6_invalidation_points.2.2.1 sampleIdle 3 rfl,
   claim_C6_invalidation_points.2.2.2.1 samplePrimaryInPass sampleSecondary
     sampleRenderPass sampleRenderPass rfl rfl rfl rfl rfl,
   claim_C6_invalidation_points.2.2.2.2.1 samplePrimaryIdle rfl,
   claim_C6_invalidation_points.2.2.2.2.2.2.2.2.2.1 sampleActive
     sampleViewportValue rfl⟩
